import Mathlib

/-!
Tables controller (`back-end/src/tables/tables.controller.js`)

A shallow embedding of the Express middleware of the tables controller and of the three
guard chains it exports (`create`, `seatReservation`, `finishReservation`), followed by
theorems about them.

* JavaScript values are the JSON values plus `undefined`; numbers are rationals (every finite
  double is one, and a JSON body cannot carry `NaN` or an infinity).
* A middleware is a function from the request context to a `Step`: it calls `next()`, calls
  `next(err)`, throws, or answers the request.
* The persistence collaborators (`tables.service`, `reservations.service`) are not part of the
  controller file; they are modelled as rows kept in lists, see `Store`.
-/

namespace Tables

/-! ## JavaScript values -/

/-- JSON values together with `undefined`. -/
inductive JsVal where
  | undefined
  | null
  | bool (b : Bool)
  | num (q : ℚ)
  | str (s : String)
  | obj (fields : List (String × JsVal))
  | arr (items : List JsVal)

/-- The own properties of an object, in insertion order; the first entry for a key is the
property (keys of a JavaScript object are unique). -/
abbrev Obj := List (String × JsVal)

namespace JsVal

mutual
/-- Structural equality of values (used by the row stores to compare identifiers). -/
def beq : JsVal → JsVal → Bool
  | undefined, undefined => true
  | null, null => true
  | bool a, bool b => a == b
  | num a, num b => decide (a = b)
  | str a, str b => decide (a = b)
  | obj a, obj b => beqFields a b
  | arr a, arr b => beqItems a b
  | _, _ => false
/-- Structural equality of property lists. -/
def beqFields : List (String × JsVal) → List (String × JsVal) → Bool
  | [], [] => true
  | (k, v) :: xs, (k2, v2) :: ys => decide (k = k2) && beq v v2 && beqFields xs ys
  | _, _ => false
/-- Structural equality of array items. -/
def beqItems : List JsVal → List JsVal → Bool
  | [], [] => true
  | v :: xs, v2 :: ys => beq v v2 && beqItems xs ys
  | _, _ => false
end

/-- Truthiness, as tested by `if (v)` and by `v || w`: `undefined`, `null`, `false`, `0` and
the empty string are falsy, every other value (objects and arrays included) is truthy. -/
def truthy : JsVal → Bool
  | undefined => false
  | null => false
  | bool b => b
  | num q => !decide (q = 0)
  | str s => !decide (s = "")
  | obj _ => true
  | arr _ => true

/-- The test `v === null`. -/
def isNull : JsVal → Bool
  | null => true
  | _ => false

/-- The value of `Number.isInteger(v)`: `v` is a number with no fractional part. -/
def isInteger : JsVal → Bool
  | num q => decide (q.den = 1)
  | _ => false

end JsVal


/-- The value of `s.length`: the number of UTF-16 code units of the string. -/
def utf16Length (s : String) : Nat :=
  (s.toList.map (fun ch => if ch.val.toNat < 65536 then 1 else 2)).sum

/-- Own property of an object; `none` when the object has no such key. -/
def field? : Obj → String → Option JsVal
  | [], _ => none
  | (k, v) :: rest, name => if k = name then some v else field? rest name

/-- The value of `o[name]` for an object: the own property, or `undefined`. -/
def field (o : Obj) (name : String) : JsVal :=
  (field? o name).getD .undefined

/-- The object literal step `name: v` applied to an object under construction: the property is
overwritten in place when the key is already there, appended otherwise. -/
def setField : Obj → String → JsVal → Obj
  | [], name, v => [(name, v)]
  | (k, x) :: rest, name, v =>
    if k = name then (k, v) :: rest else (k, x) :: setField rest name v

/-- Property access `v[name]` (also what destructuring `const { name } = v` reads). `none` is the
`TypeError` thrown when `v` is `null` or `undefined`. The controller only ever reads the names
`data`, `table_name`, `capacity`, `reservation_id`, `table_id`, `people`, `status` and
`length`; array indices and string indices are never used as names, so they are not modelled. -/
def getProp : JsVal → String → Option JsVal
  | .undefined, _ => none
  | .null, _ => none
  | .obj fields, name => some (field fields name)
  | .str s, name => some (if name = "length" then .num (utf16Length s) else .undefined)
  | .arr items, name => some (if name = "length" then .num items.length else .undefined)
  | .bool _, _ => some .undefined
  | .num _, _ => some .undefined

/-- The own enumerable properties copied by the spread `{ ...v }`: those of an object, the index
properties of an array or of a string (one per character; the controller never spreads a
string), and none for `undefined`, `null`, a boolean or a number. -/
def spread : JsVal → Obj
  | .obj fields => fields
  | .arr items => items.enum.map (fun p => (toString p.1, p.2))
  | .str s => s.toList.enum.map (fun p => (toString p.1, JsVal.str (String.singleton p.2)))
  | _ => []

/-- The default of a destructuring pattern, `{ data = {} }`: the empty object replaces
`undefined` and nothing else (`null` stays `null`). -/
def orEmptyObject : JsVal → JsVal
  | .undefined => .obj []
  | v => v

/-- How the persistence layer reports that no row has the requested identifier. -/
inductive Miss where
  | null
  | undefined

/-- The JavaScript value a missed lookup yields. -/
def Miss.toJs : Miss → JsVal
  | Miss.null => JsVal.null
  | Miss.undefined => JsVal.undefined

/-- What the controller file leaves to its surroundings: the value a lookup yields when it finds
no row, and the implicit conversions of the language that are not spelled out here (values to
text inside a template literal, and relational comparison when a string, an object or an array
has to be converted first). Every theorem below holds for every choice of these. -/
structure Env where
  /-- result of a `read` that finds no row -/
  miss : Miss
  /-- text of a value interpolated in a template literal -/
  toStr : JsVal → String
  /-- the comparison `a < b` when it needs to convert a string, an object or an array -/
  ltConv : JsVal → JsVal → Bool
  /-- the comparison `a <= b` when it needs to convert a string, an object or an array -/
  leConv : JsVal → JsVal → Bool

/-- A JavaScript number that may be `NaN`. -/
inductive Num where
  | nan
  | val (q : ℚ)

/-- The conversion `ToNumber` on the values that need no parsing: `undefined` is `NaN`, `null`
is `0`, `false` and `true` are `0` and `1`. `none` for strings, objects and arrays. -/
def primToNumber : JsVal → Option Num
  | .undefined => some Num.nan
  | .null => some (Num.val 0)
  | .bool b => some (Num.val (if b then 1 else 0))
  | .num q => some (Num.val q)
  | _ => none

/-- The comparison `a < b`: numeric once both sides are numbers, `false` when a side is `NaN`. -/
def jsLt (env : Env) (a b : JsVal) : Bool :=
  match primToNumber a, primToNumber b with
  | some (Num.val x), some (Num.val y) => decide (x < y)
  | some Num.nan, _ => false
  | _, some Num.nan => false
  | _, _ => env.ltConv a b

/-- The comparison `a <= b`: numeric once both sides are numbers, `false` when a side is
`NaN`. -/
def jsLe (env : Env) (a b : JsVal) : Bool :=
  match primToNumber a, primToNumber b with
  | some (Num.val x), some (Num.val y) => decide (x ≤ y)
  | some Num.nan, _ => false
  | _, some Num.nan => false
  | _, _ => env.leConv a b

/-- The comparison `a > b`, which the language evaluates as `b < a`. -/
def jsGt (env : Env) (a b : JsVal) : Bool :=
  jsLt env b a

/-! ## Persistence -/

/-- Modelled from the spec: the persistence layer (`tables.service` and
`reservations.service`, which the controller requires but which are not part of this file). The
spec treats it as a storage collaborator with read-by-id, list, create and update, assumed
atomic and correct. It is modelled as two lists of rows, a row being an object that carries its
identifier (`table_id`, `reservation_id`), and a counter for the identifiers handed out by
`create`. -/
structure Store where
  /-- rows of the tables -/
  tables : List Obj
  /-- rows of the reservations -/
  reservations : List Obj
  /-- next table identifier to hand out -/
  nextTableId : Nat

/-- A row has identifier `id` under the key `key`. -/
def hasId (key : String) (id : JsVal) (row : Obj) : Bool :=
  match field? row key with
  | some v => JsVal.beq v id
  | none => false

/-- Modelled from the spec: read-by-id on a list of rows. The first row carrying the identifier
is returned; when there is none the result is the environment's miss value. -/
def readRow (env : Env) (key : String) (rows : List Obj) (id : JsVal) : JsVal :=
  match rows.find? (hasId key id) with
  | some row => .obj row
  | none => env.miss.toJs

/-- The properties of `record` written over those of `row` (for each key, the first entry in
`record` is its property, see `Obj`). -/
def mergeRow (row record : Obj) : Obj :=
  record.foldr (fun p acc => setField acc p.1 p.2) row

/-- Modelled from the spec: update on a list of rows. The record names its row by the identifier
it carries; the record's fields are written over that row, every other field and row is left
as it was. A record without identifier changes nothing. -/
def updateRows (key : String) (rows : List Obj) (record : Obj) : List Obj :=
  match field? record key with
  | some id => rows.map (fun row => if hasId key id row then mergeRow row record else row)
  | none => rows

/-- The value an update resolves to: the updated row, `undefined` when no row was updated. -/
def updatedRow (key : String) (rows : List Obj) (record : Obj) : JsVal :=
  match field? record key with
  | some id =>
    match (updateRows key rows record).find? (hasId key id) with
    | some row => .obj row
    | none => .undefined
  | none => .undefined

namespace service

/-- Modelled from the spec: `service.read(table_id)` of `tables.service`. -/
def read (env : Env) (s : Store) (table_id : JsVal) : JsVal :=
  readRow env "table_id" s.tables table_id

/-- Modelled from the spec: `service.list()` of `tables.service`. -/
def list (s : Store) : JsVal :=
  .arr (s.tables.map JsVal.obj)

/-- Modelled from the spec: `service.create(newTable)` of `tables.service`: the record is stored
as a new row under a fresh `table_id`, and that row is the result. -/
def create (s : Store) (newTable : Obj) : Store × JsVal :=
  let row : Obj := ("table_id", .num s.nextTableId) :: newTable
  ({ s with tables := s.tables ++ [row], nextTableId := s.nextTableId + 1 }, .obj row)

/-- Modelled from the spec: `service.update(updatedTable)` of `tables.service`. -/
def update (s : Store) (updatedTable : Obj) : Store × JsVal :=
  ({ s with tables := updateRows "table_id" s.tables updatedTable },
    updatedRow "table_id" s.tables updatedTable)

end service

namespace reservationsService

/-- Modelled from the spec: `reservationsService.read(reservation_id)` of
`reservations.service`. -/
def read (env : Env) (s : Store) (reservation_id : JsVal) : JsVal :=
  readRow env "reservation_id" s.reservations reservation_id

/-- Modelled from the spec: `reservationsService.update(updatedReservation)` of
`reservations.service`. -/
def update (s : Store) (updatedReservation : Obj) : Store × JsVal :=
  ({ s with reservations := updateRows "reservation_id" s.reservations updatedReservation },
    updatedRow "reservation_id" s.reservations updatedReservation)

end reservationsService

/-! ## Requests, middleware and chains -/

/-- The route parameters `req.params`. -/
structure Params where
  /-- The table the path names. The persistence model finds a row by equality with its
  `table_id`, so the parameter is kept as the identifier it denotes. -/
  table_id : JsVal

/-- The part of an Express request the controller reads. -/
structure Request where
  /-- the value of `req.params` -/
  params : Params
  /-- the value of `req.body` -/
  body : JsVal

/-- The values kept in `res.locals`; both are `undefined` until a middleware stores them. -/
structure Locals where
  /-- the value of `res.locals.table` -/
  table : JsVal
  /-- the value of `res.locals.reservation` -/
  reservation : JsVal

/-- What a middleware sees: the request, `res.locals`, and the persistent rows. -/
structure Ctx where
  /-- the request -/
  req : Request
  /-- the value of `res.locals` -/
  locals : Locals
  /-- the rows held by the persistence layer -/
  store : Store

/-- How a request ends. -/
inductive Reply where
  /-- The handler answered: the status set on the response and the bodies handed to `res.json`,
  in order. The first body is the HTTP answer; `seatReservation` and `finishReservation` call
  `res.json` a second time after their second update, when the answer has already left. -/
  | json (status : Nat) (bodies : List JsVal)
  /-- A middleware called `next({ status, message })`. -/
  | error (status : Nat) (message : String)
  /-- A middleware threw (a `TypeError` on reading a property of `null` or `undefined`); the
  exception goes to the error handler of the application, which is not part of this file. -/
  | thrown
  /-- Every middleware of the chain called `next()`. -/
  | fallthrough

/-- The result of one middleware. -/
inductive Step where
  /-- the call `next()`, with the context as the middleware leaves it -/
  | next (c : Ctx)
  /-- the request ends here; `store` holds the rows as the middleware leaves them -/
  | stop (reply : Reply) (store : Store)

/-- A middleware function `(req, res, next) => ...`. -/
abbrev Middleware := Ctx → Step

/-- The outcome of a request: the reply and the rows afterwards. -/
structure Result where
  /-- how the request ended -/
  reply : Reply
  /-- the rows after the request -/
  store : Store

/-- Express runs the middleware of a route in order; each runs only if the one before called
`next()`. -/
def runChain : List Middleware → Ctx → Result
  | [], c => { reply := Reply.fallthrough, store := c.store }
  | m :: rest, c =>
    match m c with
    | Step.next c2 => runChain rest c2
    | Step.stop reply store => { reply := reply, store := store }

/-- A request enters a route with empty `res.locals`. -/
def handle (chain : List Middleware) (s : Store) (req : Request) : Result :=
  runChain chain { req := req, locals := { table := .undefined, reservation := .undefined },
                   store := s }

/-- The call `next({ status, message })`: the rows are untouched. -/
def fail (c : Ctx) (status : Nat) (message : String) : Step :=
  Step.stop (Reply.error status message) c.store

/-- A `TypeError` thrown by a guard: the rows are untouched. -/
def throwTypeError (c : Ctx) : Step :=
  Step.stop Reply.thrown c.store

/-! ## The controller -/

/-- Source `bodyDataHas(propertyName)`, lines 5-16. -/
def bodyDataHas (propertyName : String) : Middleware := fun c =>
  -- const { data = {} } = req.body;
  match getProp c.req.body "data" with
  | none => throwTypeError c
  | some d =>
    let data := orEmptyObject d
    -- if (data[propertyName]) return next();
    match getProp data propertyName with
    | none => throwTypeError c
    | some v =>
      if v.truthy then Step.next c
      else fail c 400 ("Table must include a " ++ propertyName)

/-- Source `tableNameIsValidLength`, lines 18-29. -/
def tableNameIsValidLength (env : Env) : Middleware := fun c =>
  -- const { data: { table_name } } = req.body;
  match getProp c.req.body "data" with
  | none => throwTypeError c
  | some data =>
    match getProp data "table_name" with
    | none => throwTypeError c
    | some table_name =>
      -- if (table_name.length < 2)
      match getProp table_name "length" with
      | none => throwTypeError c
      | some len =>
        if jsLt env len (.num 2) then fail c 400 "table_name must be at lest 2 characters"
        else Step.next c

/-- Source `capacityIsValidNumber`, lines 31-42. -/
def capacityIsValidNumber (env : Env) : Middleware := fun c =>
  -- const { data: { capacity } } = req.body;
  match getProp c.req.body "data" with
  | none => throwTypeError c
  | some data =>
    match getProp data "capacity" with
    | none => throwTypeError c
    | some capacity =>
      -- if (capacity <= 0 || !Number.isInteger(capacity))
      if jsLe env capacity (.num 0) || !capacity.isInteger then
        fail c 400 "capacity must be an integer greater than 0"
      else Step.next c

/-- Source `tableExists`, lines 44-53. -/
def tableExists (env : Env) : Middleware := fun c =>
  let table_id := c.req.params.table_id
  let table := service.read env c.store table_id
  if table.truthy then Step.next { c with locals := { c.locals with table := table } }
  else fail c 404 ("Table " ++ env.toStr table_id ++ " cannot be found.")

/-- Source `checkReservationFromBody`, lines 55-68. -/
def checkReservationFromBody (env : Env) : Middleware := fun c =>
  -- const { reservation_id } = req.body.data;
  match getProp c.req.body "data" with
  | none => throwTypeError c
  | some data =>
    match getProp data "reservation_id" with
    | none => throwTypeError c
    | some reservation_id =>
      let reservation := reservationsService.read env c.store reservation_id
      if reservation.truthy then
        Step.next { c with locals := { c.locals with reservation := reservation } }
      else fail c 404 ("Reservation " ++ env.toStr reservation_id ++ " cannot be found.")

/-- Source `checkReservationFromTable`, lines 70-83. The test is `reservation !== null`. -/
def checkReservationFromTable (env : Env) : Middleware := fun c =>
  -- const { reservation_id } = res.locals.table;
  match getProp c.locals.table "reservation_id" with
  | none => throwTypeError c
  | some reservation_id =>
    let reservation := reservationsService.read env c.store reservation_id
    if !reservation.isNull then
      Step.next { c with locals := { c.locals with reservation := reservation } }
    else fail c 404 ("Reservation " ++ env.toStr reservation_id ++ " cannot be found.")

/-- Source `checkCapacity`, lines 85-93. -/
def checkCapacity (env : Env) : Middleware := fun c =>
  match getProp c.locals.reservation "people" with
  | none => throwTypeError c
  | some people =>
    match getProp c.locals.table "capacity" with
    | none => throwTypeError c
    | some capacity =>
      if jsGt env people capacity then
        match getProp c.locals.table "table_id" with
        | none => throwTypeError c
        | some table_id =>
          fail c 400 ("Table " ++ env.toStr table_id ++ " can not seat " ++ env.toStr people
            ++ " people, choose table with higher capacity")
      else Step.next c

/-- Source `checkIfOccupied`, lines 95-103. -/
def checkIfOccupied (env : Env) : Middleware := fun c =>
  match getProp c.locals.table "reservation_id" with
  | none => throwTypeError c
  | some reservation_id =>
    if !reservation_id.isNull then
      match getProp c.locals.table "table_id" with
      | none => throwTypeError c
      | some table_id =>
        fail c 400 ("Table " ++ env.toStr table_id ++ " is occupied, choose different table")
    else Step.next c

/-- Source `checkIfNotOccupied`, lines 105-113. -/
def checkIfNotOccupied (env : Env) : Middleware := fun c =>
  match getProp c.locals.table "reservation_id" with
  | none => throwTypeError c
  | some reservation_id =>
    if reservation_id.isNull then
      match getProp c.locals.table "table_id" with
      | none => throwTypeError c
      | some table_id => fail c 400 ("Table " ++ env.toStr table_id ++ " is not occupied")
    else Step.next c

/-- The test `status === "seated"`. -/
def isSeated : JsVal → Bool
  | .str s => decide (s = "seated")
  | _ => false

/-- Source `checkIfSeated`, lines 115-124. -/
def checkIfSeated : Middleware := fun c =>
  -- const { status } = res.locals.reservation;
  match getProp c.locals.reservation "status" with
  | none => throwTypeError c
  | some status =>
    if isSeated status then fail c 400 "this reservation is already seated"
    else Step.next c

/-- Source `list`, lines 126-129. -/
def list : Middleware := fun c =>
  Step.stop (Reply.json 200 [.obj [("data", service.list c.store)]]) c.store

/-- The record `create` hands to `service.create`: `{ table_name, capacity, reservation_id:
reservation_id || null }`. -/
def newTable (table_name capacity reservation_id : JsVal) : Obj :=
  [("table_name", table_name), ("capacity", capacity),
   ("reservation_id", if reservation_id.truthy then reservation_id else .null)]

/-- Source `create`, lines 131-143. -/
def create : Middleware := fun c =>
  -- const { data: { table_name, capacity, reservation_id } = {} } = req.body;
  match getProp c.req.body "data" with
  | none => throwTypeError c
  | some d =>
    let data := orEmptyObject d
    match getProp data "table_name", getProp data "capacity", getProp data "reservation_id" with
    | some table_name, some capacity, some reservation_id =>
      let created := service.create c.store (newTable table_name capacity reservation_id)
      -- res.status(201).json({ data });
      Step.stop (Reply.json 201 [.obj [("data", created.2)]]) created.1
    | _, _, _ => throwTypeError c

/-- The record `seatReservation` hands to `service.update`: `{ ...req.body.data, table_id:
res.locals.table.table_id }`. -/
def seatedTable (data table_id : JsVal) : Obj :=
  setField (spread data) "table_id" table_id

/-- Source `seatReservation`, lines 145-161. -/
def seatReservation : Middleware := fun c =>
  match getProp c.req.body "data" with
  | none => throwTypeError c
  | some data =>
    match getProp c.locals.table "table_id" with
    | none => throwTypeError c
    | some table_id =>
      let updatedTable := seatedTable data table_id
      let t := service.update c.store updatedTable
      -- res.json({ tableData });
      let updatedReservation := setField (spread c.locals.reservation) "status" (.str "seated")
      let r := reservationsService.update t.1 updatedReservation
      -- res.json({ reservationData });
      Step.stop (Reply.json 200 [.obj [("tableData", t.2)], .obj [("reservationData", r.2)]]) r.1

/-- Source `finishReservation`, lines 163-179. -/
def finishReservation : Middleware := fun c =>
  let updatedTable := setField (spread c.locals.table) "reservation_id" .null
  let t := service.update c.store updatedTable
  -- res.json({ tableData });
  let updatedReservation := setField (spread c.locals.reservation) "status" (.str "finished")
  let r := reservationsService.update t.1 updatedReservation
  -- res.json({ reservationData });
  Step.stop (Reply.json 200 [.obj [("tableData", t.2)], .obj [("reservationData", r.2)]]) r.1

/-! The exported routes, source lines 181-205. `asyncErrorBoundary` turns a rejected promise into
`next(error)`; in this embedding a throwing middleware already ends the request. -/
namespace exports

/-- The route `list`. -/
def list : List Middleware :=
  [Tables.list]

/-- The route `create`. -/
def create (env : Env) : List Middleware :=
  [bodyDataHas "table_name", bodyDataHas "capacity", tableNameIsValidLength env,
   capacityIsValidNumber env, Tables.create]

/-- The route `seatReservation`. -/
def seatReservation (env : Env) : List Middleware :=
  [bodyDataHas "reservation_id", checkReservationFromBody env, tableExists env, checkIfSeated,
   checkIfOccupied env, checkCapacity env, Tables.seatReservation]

/-- The route `finishReservation`. -/
def finishReservation (env : Env) : List Middleware :=
  [tableExists env, checkReservationFromTable env, checkIfNotOccupied env,
   Tables.finishReservation]

end exports

/-! ## Rows addressed by a request -/

/-- The table row an identifier addresses, if there is one. -/
def tableRow (s : Store) (table_id : JsVal) : Option Obj :=
  s.tables.find? (hasId "table_id" table_id)

/-- The reservation row an identifier addresses, if there is one. -/
def reservationRow (s : Store) (reservation_id : JsVal) : Option Obj :=
  s.reservations.find? (hasId "reservation_id" reservation_id)

/-! ## Reading the claims -/

/-- A request succeeded when its chain reached the handler and the handler answered. -/
def Result.succeeded (r : Result) : Bool :=
  match r.reply with
  | Reply.json _ _ => true
  | _ => false

/-- The HTTP status a reply carries, when it carries one. -/
def Reply.status : Reply → Option Nat
  | Reply.json status _ => some status
  | Reply.error status _ => some status
  | _ => none

/-- The `reservation_id` a request carries in `body.data` (`undefined` when the body has no
`data`, or `data` has no such property). -/
def bodyReservationId (req : Request) : JsVal :=
  match getProp req.body "data" with
  | some d => (getProp (orEmptyObject d) "reservation_id").getD .undefined
  | none => .undefined

/-- The guards of `seatReservation` as the specification lists them, in its order: for each guard,
whether the request violates it, and the error it answers with. (1) `reservation_id` present in
the body (a falsy value counts as absent), (2) the reservation exists, (3) the table exists, (4)
the reservation is not already seated, (5) the table is not occupied, (6) the party fits the
table. Guards (4) to (6) read the rows the lookups found (an empty row when there is none). -/
def seatGuards (env : Env) (s : Store) (req : Request) : List (Bool × Reply) :=
  let rid := bodyReservationId req
  let r := (reservationRow s rid).getD []
  let t := (tableRow s req.params.table_id).getD []
  [ (!rid.truthy, Reply.error 400 "Table must include a reservation_id"),
    ((reservationRow s rid).isNone,
      Reply.error 404 ("Reservation " ++ env.toStr rid ++ " cannot be found.")),
    ((tableRow s req.params.table_id).isNone,
      Reply.error 404 ("Table " ++ env.toStr req.params.table_id ++ " cannot be found.")),
    (isSeated (field r "status"), Reply.error 400 "this reservation is already seated"),
    (!(field t "reservation_id").isNull,
      Reply.error 400
        ("Table " ++ env.toStr (field t "table_id") ++ " is occupied, choose different table")),
    (jsGt env (field r "people") (field t "capacity"),
      Reply.error 400
        ("Table " ++ env.toStr (field t "table_id") ++ " can not seat "
          ++ env.toStr (field r "people") ++ " people, choose table with higher capacity")) ]

/-- The error of the first violated guard of a list, `none` when no guard is violated. -/
def firstViolated : List (Bool × Reply) → Option Reply
  | [] => none
  | (violated, error) :: rest => if violated then some error else firstViolated rest

/-! ## Worked inputs -/

/-- An environment for the worked inputs: a lookup that finds no row yields `undefined`, strings
and integers are interpolated as JavaScript prints them, and the comparisons that need a
conversion are `false`. -/
def exampleEnv : Env :=
  { miss := Miss.undefined,
    toStr := fun v =>
      match v with
      | .str s => s
      | .num q => toString q.num
      | _ => "",
    ltConv := fun _ _ => false,
    leConv := fun _ _ => false }

/-- An environment as `exampleEnv`, but one in which a lookup that finds no row yields `null`
(and `null` is interpolated as JavaScript prints it). -/
def nullMissEnv : Env :=
  { miss := Miss.null,
    toStr := fun v =>
      match v with
      | .null => "null"
      | .str s => s
      | .num q => toString q.num
      | _ => "",
    ltConv := fun _ _ => false,
    leConv := fun _ _ => false }

/-- A request for the table `table_id` with the given body. -/
def request (table_id : JsVal) (body : JsVal) : Request :=
  { params := { table_id := table_id }, body := body }

/-- The body `{ data: { ... } }`. -/
def dataBody (data : Obj) : JsVal :=
  .obj [("data", .obj data)]

/-- No tables and no reservations; the first table created gets identifier 1. -/
def emptyStore : Store :=
  { tables := [], reservations := [], nextTableId := 1 }

/-- Table 1 (capacity 4) is free; reservation 7 (4 people) is booked. -/
def sampleStore : Store :=
  { tables := [[("table_id", .num 1), ("table_name", .str "Bar #1"), ("capacity", .num 4),
                ("reservation_id", .null)]],
    reservations := [[("reservation_id", .num 7), ("people", .num 4),
                      ("status", .str "booked")]],
    nextTableId := 2 }

/-- Table 1 (capacity 4) holds reservation 7 (4 people), which is seated. -/
def seatedStore : Store :=
  { tables := [[("table_id", .num 1), ("table_name", .str "Bar #1"), ("capacity", .num 4),
                ("reservation_id", .num 7)]],
    reservations := [[("reservation_id", .num 7), ("people", .num 4),
                      ("status", .str "seated")]],
    nextTableId := 2 }

/-- Table 1 refers to reservation 9, and there is no reservation 9. -/
def danglingStore : Store :=
  { tables := [[("table_id", .num 1), ("table_name", .str "Bar #1"), ("capacity", .num 4),
                ("reservation_id", .num 9)]],
    reservations := [],
    nextTableId := 2 }

/-- A `seatReservation` request for table 1 with body `{ data: { reservation_id: 7 } }`. -/
def seatRequest : Request :=
  request (.num 1) (dataBody [("reservation_id", .num 7)])

/-- A `finishReservation` request for table 1, with an empty body. -/
def finishRequest : Request :=
  request (.num 1) (.obj [])

/-- A `create` request with body `{ data: { table_name: "T1", capacity: 4 } }`. -/
def createRequest : Request :=
  request .undefined (dataBody [("table_name", .str "T1"), ("capacity", .num 4)])

/-! ## Runs of calls and the consistency of the rows -/

/-- A call to one of the three routes that change rows. -/
inductive Call where
  /-- a call to the route `create` -/
  | create (req : Request)
  /-- a call to the route `seatReservation` -/
  | seatReservation (req : Request)
  /-- a call to the route `finishReservation` -/
  | finishReservation (req : Request)

/-- The outcome of a call on a store. -/
def Call.handle (env : Env) (s : Store) : Call → Result
  | Call.create req => Tables.handle (exports.create env) s req
  | Call.seatReservation req => Tables.handle (exports.seatReservation env) s req
  | Call.finishReservation req => Tables.handle (exports.finishReservation env) s req

/-- The rows a call leaves behind. -/
def Call.run (env : Env) (s : Store) (call : Call) : Store :=
  (call.handle env s).store

/-- The rows after a sequence of calls, executed one at a time. -/
def runCalls (env : Env) : Store → List Call → Store
  | s, [] => s
  | s, call :: rest => runCalls env (call.run env s) rest

/-- What a middleware may do to the rows: pass the request on with the rows untouched, end it with
the rows untouched, or answer it. -/
def Step.keeps (s : Store) : Step → Prop
  | Step.next c => c.store = s
  | Step.stop (Reply.json _ _) _ => True
  | Step.stop _ store => store = s

/-- The number of tables whose `reservation_id` is the given identifier. -/
def referencing (s : Store) (reservation_id : JsVal) : Nat :=
  s.tables.countP (hasId "reservation_id" reservation_id)

/-- Consistency of tables and reservations, as the specification states it: at most one table
refers to any given reservation, and every reservation whose status is `"seated"` carries an
identifier to which exactly one table refers. -/
def Consistent (s : Store) : Prop :=
  (∀ rid : JsVal, rid.isNull = false → referencing s rid ≤ 1) ∧
  (∀ r ∈ s.reservations, isSeated (field r "status") = true →
    ∃ rid, field? r "reservation_id" = some rid ∧ rid.isNull = false ∧ referencing s rid = 1)

/-- The invariant carried through a run of calls. Besides consistency it records how the rows got
there: table identifiers were handed out by `create`, and a table refers only to a reservation
that exists and is seated. -/
structure Invariant (s : Store) : Prop where
  /-- every table carries an identifier handed out by `create` -/
  ids : ∀ row ∈ s.tables,
    ∃ k : Nat, k < s.nextTableId ∧ field? row "table_id" = some (.num k)
  /-- no two tables carry the same identifier -/
  distinct : (s.tables.map (fun row => field? row "table_id")).Nodup
  /-- a table is free, or refers to a reservation that exists and is seated -/
  refs : ∀ t ∈ s.tables, ∃ v, field? t "reservation_id" = some v ∧
    (v.isNull = true ∨
      ((∃ r ∈ s.reservations, hasId "reservation_id" v r = true) ∧
        ∀ r ∈ s.reservations, hasId "reservation_id" v r = true →
          isSeated (field r "status") = true))
  /-- at most one table refers to any given reservation -/
  atMostOne : ∀ rid : JsVal, rid.isNull = false → referencing s rid ≤ 1
  /-- a seated reservation is referred to by a table -/
  seated : ∀ r ∈ s.reservations, isSeated (field r "status") = true →
    ∃ rid, field? r "reservation_id" = some rid ∧ rid.isNull = false ∧
      ∃ t ∈ s.tables, hasId "reservation_id" rid t = true

/-! ## Further worked inputs -/

/-- No table yet; reservation 7 (4 people) is booked. -/
def bookedStore : Store :=
  { tables := [],
    reservations := [[("reservation_id", .num 7), ("people", .num 4),
                      ("status", .str "booked")]],
    nextTableId := 1 }

/-- Table 1 (capacity 4) is free; reservations 7 (4 people) and 8 (5 people) are booked. -/
def twoPartiesStore : Store :=
  { tables := [[("table_id", .num 1), ("table_name", .str "Bar #1"), ("capacity", .num 4),
                ("reservation_id", .null)]],
    reservations := [[("reservation_id", .num 7), ("people", .num 4),
                      ("status", .str "booked")],
                     [("reservation_id", .num 8), ("people", .num 5),
                      ("status", .str "booked")]],
    nextTableId := 2 }

/-- Table 1 (capacity 4) is free; reservation 7 (4 people) is finished. -/
def finishedStore : Store :=
  { tables := [[("table_id", .num 1), ("table_name", .str "Bar #1"), ("capacity", .num 4),
                ("reservation_id", .null)]],
    reservations := [[("reservation_id", .num 7), ("people", .num 4),
                      ("status", .str "finished")]],
    nextTableId := 2 }

/-- A `seatReservation` request for table 1 with body `{ data: { reservation_id: 8 } }`. -/
def seatEightRequest : Request :=
  request (.num 1) (dataBody [("reservation_id", .num 8)])

/-- A `seatReservation` request for table 1 whose body carries more than the `reservation_id`:
it also carries `capacity: 99`, `table_name: "Window"` and `table_id: 5`. -/
def crowdedSeatRequest : Request :=
  request (.num 1) (dataBody [("reservation_id", .num 7), ("capacity", .num 99),
    ("table_name", .str "Window"), ("table_id", .num 5)])

/-- A `create` request for a table of capacity 4 that supplies `reservation_id: 9`. -/
def occupiedCreateRequest : Request :=
  request .undefined (dataBody [("table_name", .str "Bar #1"), ("capacity", .num 4),
    ("reservation_id", .num 9)])

/-- A second `create` request for a table of capacity 4 that supplies `reservation_id: 9`. -/
def secondOccupiedCreateRequest : Request :=
  request .undefined (dataBody [("table_name", .str "Bar #2"), ("capacity", .num 4),
    ("reservation_id", .num 9)])

/-- A `create` request for a table of capacity 4 that supplies `reservation_id: 7`. -/
def seatedCreateRequest : Request :=
  request .undefined (dataBody [("table_name", .str "Bar #2"), ("capacity", .num 4),
    ("reservation_id", .num 7)])

/-! ## Basic facts about values and objects -/

mutual
theorem JsVal.eq_of_beq : ∀ a b : JsVal, JsVal.beq a b = true → a = b
  | .undefined, b, h => by cases b <;> simp_all [JsVal.beq]
  | .null, b, h => by cases b <;> simp_all [JsVal.beq]
  | .bool x, b, h => by cases b <;> simp_all [JsVal.beq]
  | .num x, b, h => by cases b <;> simp_all [JsVal.beq]
  | .str x, b, h => by cases b <;> simp_all [JsVal.beq]
  | .obj xs, b, h => by
    cases b <;> simp [JsVal.beq] at h
    rw [JsVal.eqFields_of_beq xs _ h]
  | .arr xs, b, h => by
    cases b <;> simp [JsVal.beq] at h
    rw [JsVal.eqItems_of_beq xs _ h]
theorem JsVal.eqFields_of_beq :
    ∀ xs ys : List (String × JsVal), JsVal.beqFields xs ys = true → xs = ys
  | [], ys, h => by cases ys <;> simp_all [JsVal.beqFields]
  | (k, v) :: xs, ys, h => by
    cases ys with
    | nil => simp [JsVal.beqFields] at h
    | cons y ys =>
      obtain ⟨k2, v2⟩ := y
      simp [JsVal.beqFields] at h
      rw [h.1.1, JsVal.eq_of_beq v v2 h.1.2, JsVal.eqFields_of_beq xs ys h.2]
theorem JsVal.eqItems_of_beq :
    ∀ xs ys : List JsVal, JsVal.beqItems xs ys = true → xs = ys
  | [], ys, h => by cases ys <;> simp_all [JsVal.beqItems]
  | v :: xs, ys, h => by
    cases ys with
    | nil => simp [JsVal.beqItems] at h
    | cons v2 ys =>
      simp [JsVal.beqItems] at h
      rw [JsVal.eq_of_beq v v2 h.1, JsVal.eqItems_of_beq xs ys h.2]
end

mutual
theorem JsVal.beq_self : ∀ a : JsVal, JsVal.beq a a = true
  | .undefined => rfl
  | .null => rfl
  | .bool x => by simp [JsVal.beq]
  | .num x => by simp [JsVal.beq]
  | .str x => by simp [JsVal.beq]
  | .obj xs => by simp [JsVal.beq, JsVal.beqFields_self xs]
  | .arr xs => by simp [JsVal.beq, JsVal.beqItems_self xs]
theorem JsVal.beqFields_self : ∀ xs : List (String × JsVal), JsVal.beqFields xs xs = true
  | [] => rfl
  | (k, v) :: xs => by simp [JsVal.beqFields, JsVal.beq_self v, JsVal.beqFields_self xs]
theorem JsVal.beqItems_self : ∀ xs : List JsVal, JsVal.beqItems xs xs = true
  | [] => rfl
  | v :: xs => by simp [JsVal.beqItems, JsVal.beq_self v, JsVal.beqItems_self xs]
end

theorem JsVal.beq_iff (a b : JsVal) : JsVal.beq a b = true ↔ a = b :=
  ⟨JsVal.eq_of_beq a b, fun h => h ▸ JsVal.beq_self a⟩

theorem field?_setField_same (o : Obj) (name : String) (v : JsVal) :
    field? (setField o name v) name = some v := by
  induction o with
  | nil => simp [setField, field?]
  | cons p rest ih =>
    obtain ⟨k, x⟩ := p
    by_cases hk : k = name
    · simp [setField, field?, hk]
    · simp [setField, field?, hk, ih]

theorem field?_setField_other (o : Obj) (name other : String) (v : JsVal) (h : name ≠ other) :
    field? (setField o name v) other = field? o other := by
  induction o with
  | nil => simp [setField, field?, h]
  | cons p rest ih =>
    obtain ⟨k, x⟩ := p
    by_cases hk : k = name
    · subst hk
      simp [setField, field?, h]
    · simp [setField, field?, hk, ih]

theorem field?_mergeRow (row record : Obj) (name : String) :
    field? (mergeRow row record) name =
      match field? record name with
      | some v => some v
      | none => field? row name := by
  induction record with
  | nil => simp [mergeRow, field?]
  | cons p rest ih =>
    obtain ⟨k, x⟩ := p
    have hm : mergeRow row ((k, x) :: rest) = setField (mergeRow row rest) k x := by
      simp [mergeRow]
    by_cases hk : k = name
    · subst hk
      rw [hm, field?_setField_same]
      simp [field?]
    · rw [hm, field?_setField_other _ _ _ _ hk, ih]
      simp [field?, hk]

/-! ## The persistence model -/

/-- A row has an identifier exactly when it carries it under the key. -/
theorem hasId_iff (key : String) (id : JsVal) (row : Obj) :
    hasId key id row = true ↔ field? row key = some id := by
  unfold hasId
  cases h : field? row key with
  | none => simp
  | some v => simp [JsVal.beq_iff]

theorem hasId_update (key : String) (record row : Obj) (id0 id : JsVal)
    (h : field? record key = some id0) :
    hasId key id (if hasId key id0 row then mergeRow row record else row) = hasId key id row := by
  by_cases hrow : hasId key id0 row = true
  · rw [if_pos hrow]
    have h1 : field? (mergeRow row record) key = some id0 := by
      rw [field?_mergeRow, h]
    have h2 : field? row key = some id0 := (hasId_iff _ _ _).1 hrow
    unfold hasId
    rw [h1, h2]
  · rw [if_neg hrow]

/-- Read after update: the row an identifier addresses after an update is the row it addressed
before, with the record written over it when the record names that row. -/
theorem find?_updateRows (key : String) (rows : List Obj) (record : Obj) (id0 id : JsVal)
    (h : field? record key = some id0) :
    (updateRows key rows record).find? (hasId key id) =
      (rows.find? (hasId key id)).map
        (fun row => if hasId key id0 row then mergeRow row record else row) := by
  unfold updateRows
  rw [h]
  induction rows with
  | nil => rfl
  | cons row rest ih =>
    simp only [List.map_cons, List.find?_cons, hasId_update key record row id0 id h]
    cases hasId key id row with
    | true => rfl
    | false => exact ih

theorem read_eq_tableRow (env : Env) (s : Store) (id : JsVal) :
    service.read env s id =
      match tableRow s id with
      | some row => .obj row
      | none => env.miss.toJs := rfl

theorem read_eq_reservationRow (env : Env) (s : Store) (id : JsVal) :
    reservationsService.read env s id =
      match reservationRow s id with
      | some row => .obj row
      | none => env.miss.toJs := rfl

theorem Miss.truthy_toJs (m : Miss) : m.toJs.truthy = false := by
  cases m <;> rfl

theorem field?_of_tableRow (s : Store) (id : JsVal) (t : Obj) (h : tableRow s id = some t) :
    field? t "table_id" = some id := by
  unfold tableRow at h
  exact (hasId_iff _ _ _).1 (List.find?_some h)

theorem field?_of_reservationRow (s : Store) (id : JsVal) (r : Obj)
    (h : reservationRow s id = some r) : field? r "reservation_id" = some id := by
  unfold reservationRow at h
  exact (hasId_iff _ _ _).1 (List.find?_some h)

/-! ## The route `finishReservation` -/

/-- The route `finishReservation` when no table has the requested identifier: 404, rows untouched.
-/
theorem finish_table_missing (env : Env) (s : Store) (req : Request)
    (h : tableRow s req.params.table_id = none) :
    handle (exports.finishReservation env) s req =
      { reply := Reply.error 404 ("Table " ++ env.toStr req.params.table_id ++ " cannot be found."),
        store := s } := by
  simp [handle, exports.finishReservation, runChain, tableExists, read_eq_tableRow, h,
    Miss.truthy_toJs, fail]

/-- The route `finishReservation` when the table exists: the lookup guard (`reservation !==
null`), then the occupancy guard, then the handler. -/
theorem finish_table_found (env : Env) (s : Store) (req : Request) (t : Obj)
    (h : tableRow s req.params.table_id = some t) :
    handle (exports.finishReservation env) s req =
      if (reservationsService.read env s (field t "reservation_id")).isNull then
        { reply := Reply.error 404
            ("Reservation " ++ env.toStr (field t "reservation_id") ++ " cannot be found."),
          store := s }
      else if (field t "reservation_id").isNull then
        { reply := Reply.error 400 ("Table " ++ env.toStr (field t "table_id") ++ " is not occupied"),
          store := s }
      else
        runChain [Tables.finishReservation]
          { req := req,
            locals := { table := .obj t,
                        reservation := reservationsService.read env s (field t "reservation_id") },
            store := s } := by
  simp only [handle, exports.finishReservation, runChain, tableExists, read_eq_tableRow, h,
    JsVal.truthy, checkReservationFromTable, getProp, if_true]
  by_cases h1 : (reservationsService.read env s (field t "reservation_id")).isNull = true
  · simp [h1, fail]
  · by_cases h2 : (field t "reservation_id").isNull = true
    · simp [h1, h2, fail, checkIfNotOccupied, getProp]
    · simp [h1, h2, checkIfNotOccupied, getProp, runChain]

theorem tableRow_update (s : Store) (record : Obj) (id0 id : JsVal)
    (h : field? record "table_id" = some id0) :
    tableRow (service.update s record).1 id =
      (tableRow s id).map
        (fun row => if hasId "table_id" id0 row then mergeRow row record else row) :=
  find?_updateRows "table_id" s.tables record id0 id h

theorem reservationRow_update (s : Store) (record : Obj) (id0 id : JsVal)
    (h : field? record "reservation_id" = some id0) :
    reservationRow (reservationsService.update s record).1 id =
      (reservationRow s id).map
        (fun row => if hasId "reservation_id" id0 row then mergeRow row record else row) :=
  find?_updateRows "reservation_id" s.reservations record id0 id h

theorem field_mergeRow_of_mem (row record : Obj) (name : String) (v : JsVal)
    (h : field? record name = some v) : field (mergeRow row record) name = v := by
  simp [field, field?_mergeRow, h]

/-- C3. When the addressed table exists, is occupied (`reservation_id !== null`) and the
reservation it refers to exists, `finishReservation` answers 200, and in the resulting store the
table has `reservation_id` equal to `null` and the reservation it referred to has `status` equal
to `"finished"`. -/
theorem C3_finishReservation_frees_table (env : Env) (s : Store) (req : Request) (t r : Obj)
    (ht : tableRow s req.params.table_id = some t)
    (hocc : (field t "reservation_id").isNull = false)
    (hr : reservationRow s (field t "reservation_id") = some r) :
    ∃ bodies t2 r2,
      (handle (exports.finishReservation env) s req).reply = Reply.json 200 bodies ∧
      tableRow (handle (exports.finishReservation env) s req).store req.params.table_id
        = some t2 ∧
      field t2 "reservation_id" = .null ∧
      reservationRow (handle (exports.finishReservation env) s req).store
        (field t "reservation_id") = some r2 ∧
      field r2 "status" = .str "finished" := by
  have hread : reservationsService.read env s (field t "reservation_id") = .obj r := by
    rw [read_eq_reservationRow, hr]
  have htid : field? t "table_id" = some req.params.table_id := field?_of_tableRow _ _ _ ht
  have hrid : field? r "reservation_id" = some (field t "reservation_id") :=
    field?_of_reservationRow _ _ _ hr
  have hrecT : field? (setField t "reservation_id" .null) "table_id"
      = some req.params.table_id := by
    rw [field?_setField_other _ _ _ _ (by decide), htid]
  have hrecR : field? (setField r "status" (.str "finished")) "reservation_id"
      = some (field t "reservation_id") := by
    rw [field?_setField_other _ _ _ _ (by decide), hrid]
  rw [finish_table_found env s req t ht, hread, if_neg (by simp [JsVal.isNull]),
    if_neg (by simp [hocc])]
  simp only [runChain, Tables.finishReservation, spread]
  refine ⟨_, mergeRow t (setField t "reservation_id" .null),
    mergeRow r (setField r "status" (.str "finished")), rfl, ?_, ?_, ?_, ?_⟩
  · show tableRow (service.update s _).1 _ = _
    rw [tableRow_update s _ _ _ hrecT, ht]
    simp only [Option.map_some', (hasId_iff _ _ _).2 htid, if_true]
  · exact field_mergeRow_of_mem _ _ _ _ (field?_setField_same _ _ _)
  · show reservationRow (reservationsService.update _ _).1 _ = _
    rw [reservationRow_update _ _ _ _ hrecR]
    show Option.map _ (reservationRow s _) = _
    rw [hr]
    simp only [Option.map_some', (hasId_iff _ _ _).2 hrid, if_true]
  · exact field_mergeRow_of_mem _ _ _ _ (field?_setField_same _ _ _)

theorem field_of_field? (o : Obj) (name : String) (v : JsVal) (h : field? o name = some v) :
    field o name = v := by
  simp [field, h]

/-- The route `finishReservation` on a free table, when a missed lookup yields `undefined`: the
lookup guard lets the request through and the occupancy guard answers 400. -/
theorem finish_free_table (env : Env) (s : Store) (req : Request) (t : Obj)
    (hmiss : env.miss = Miss.undefined)
    (ht : tableRow s req.params.table_id = some t)
    (hfree : field t "reservation_id" = .null) :
    handle (exports.finishReservation env) s req =
      { reply := Reply.error 400 ("Table " ++ env.toStr req.params.table_id ++ " is not occupied"),
        store := s } := by
  have hnn : (reservationsService.read env s .null).isNull = false := by
    rw [read_eq_reservationRow]
    cases reservationRow s .null with
    | none => simp [hmiss, Miss.toJs, JsVal.isNull]
    | some r => simp [JsVal.isNull]
  rw [finish_table_found env s req t ht, hfree, if_neg (by simp [hnn]),
    if_pos (by simp [JsVal.isNull]),
    field_of_field? _ _ _ (field?_of_tableRow _ _ _ ht)]

/-- The route `finishReservation` on a free table, when a missed lookup yields `null` and no
reservation has the identifier `null`: the lookup guard answers 404 before the occupancy guard
is reached. -/
theorem finish_free_table_null_miss (env : Env) (s : Store) (req : Request) (t : Obj)
    (hmiss : env.miss = Miss.null)
    (ht : tableRow s req.params.table_id = some t)
    (hfree : field t "reservation_id" = .null)
    (hnone : reservationRow s .null = none) :
    handle (exports.finishReservation env) s req =
      { reply := Reply.error 404 ("Reservation " ++ env.toStr .null ++ " cannot be found."),
        store := s } := by
  have hnn : (reservationsService.read env s .null).isNull = true := by
    rw [read_eq_reservationRow, hnone]
    simp [hmiss, Miss.toJs, JsVal.isNull]
  rw [finish_table_found env s req t ht, hfree, if_pos hnn]

/-- A successful `finishReservation` found its table and wrote both updates. -/
theorem finish_succeeded (env : Env) (s : Store) (req : Request)
    (h : (handle (exports.finishReservation env) s req).succeeded = true) :
    ∃ t, tableRow s req.params.table_id = some t ∧
      (handle (exports.finishReservation env) s req).store =
        (reservationsService.update (service.update s (setField t "reservation_id" .null)).1
          (setField (spread (reservationsService.read env s (field t "reservation_id")))
            "status" (.str "finished"))).1 := by
  cases ht : tableRow s req.params.table_id with
  | none =>
    rw [finish_table_missing env s req ht] at h
    simp [Result.succeeded] at h
  | some t =>
    refine ⟨t, rfl, ?_⟩
    rw [finish_table_found env s req t ht] at h ⊢
    split_ifs at h ⊢ with h1 h2
    · simp [Result.succeeded] at h
    · simp [Result.succeeded] at h
    · rfl

/-- After a successful `finishReservation` the table is free, so a second call is a call on a free
table. -/
theorem finish_twice (env : Env) (s : Store) (req : Request)
    (hmiss : env.miss = Miss.undefined)
    (h : (handle (exports.finishReservation env) s req).succeeded = true) :
    handle (exports.finishReservation env)
        (handle (exports.finishReservation env) s req).store req =
      { reply := Reply.error 400 ("Table " ++ env.toStr req.params.table_id ++ " is not occupied"),
        store := (handle (exports.finishReservation env) s req).store } := by
  obtain ⟨t, ht, hs⟩ := finish_succeeded env s req h
  have htid : field? t "table_id" = some req.params.table_id := field?_of_tableRow _ _ _ ht
  have hrecT : field? (setField t "reservation_id" .null) "table_id"
      = some req.params.table_id := by
    rw [field?_setField_other _ _ _ _ (by decide), htid]
  have ht2 : tableRow (handle (exports.finishReservation env) s req).store req.params.table_id
      = some (mergeRow t (setField t "reservation_id" .null)) := by
    rw [hs]
    show tableRow (service.update s _).1 _ = _
    rw [tableRow_update s _ _ _ hrecT, ht]
    simp only [Option.map_some', (hasId_iff _ _ _).2 htid, if_true]
  exact finish_free_table env _ req _ hmiss ht2
    (field_mergeRow_of_mem _ _ _ _ (field?_setField_same _ _ _))

example : exampleEnv.toStr (.num 12) = "12" := by decide
example : "Table must include a " ++ "capacity" = "Table must include a capacity" := by decide

/-! ## The route `create` -/

theorem getProp_of_truthy (v : JsVal) (name : String) (h : v.truthy = true) :
    getProp v name = some ((getProp v name).getD .undefined) := by
  cases v <;> simp_all [getProp, JsVal.truthy]

theorem getProp_obj (fs : Obj) (name : String) : getProp (.obj fs) name = some (field fs name) :=
  rfl

theorem bodyDataHas_obj (name : String) (c : Ctx) (fs : Obj)
    (hd : getProp c.req.body "data" = some (.obj fs)) :
    bodyDataHas name c =
      if (field fs name).truthy = true then Step.next c
      else Step.stop (Reply.error 400 ("Table must include a " ++ name)) c.store := by
  unfold bodyDataHas
  rw [hd]
  simp only [orEmptyObject, getProp_obj, fail]

theorem tableNameIsValidLength_obj (env : Env) (c : Ctx) (fs : Obj)
    (hd : getProp c.req.body "data" = some (.obj fs))
    (h : (field fs "table_name").truthy = true) :
    tableNameIsValidLength env c =
      if jsLt env ((getProp (field fs "table_name") "length").getD .undefined) (.num 2) = true
      then Step.stop (Reply.error 400 "table_name must be at lest 2 characters") c.store
      else Step.next c := by
  unfold tableNameIsValidLength
  rw [hd]
  simp only [getProp_obj]
  rw [getProp_of_truthy _ "length" h]
  simp only [fail, Option.getD_some]

theorem capacityIsValidNumber_obj (env : Env) (c : Ctx) (fs : Obj)
    (hd : getProp c.req.body "data" = some (.obj fs)) :
    capacityIsValidNumber env c =
      if (jsLe env (field fs "capacity") (.num 0) || !(field fs "capacity").isInteger) = true
      then Step.stop (Reply.error 400 "capacity must be an integer greater than 0") c.store
      else Step.next c := by
  unfold capacityIsValidNumber
  rw [hd]
  simp only [getProp_obj, fail]

theorem create_obj (c : Ctx) (fs : Obj) (hd : getProp c.req.body "data" = some (.obj fs)) :
    Tables.create c =
      Step.stop (Reply.json 201 [.obj [("data", (service.create c.store
          (newTable (field fs "table_name") (field fs "capacity")
            (field fs "reservation_id"))).2)]])
        (service.create c.store
          (newTable (field fs "table_name") (field fs "capacity")
            (field fs "reservation_id"))).1 := by
  unfold Tables.create
  rw [hd]
  simp only [orEmptyObject, getProp_obj]

/-- The route `create` on a body whose `data` is an object: four guards, then the handler. -/
theorem create_eval (env : Env) (s : Store) (req : Request) (fs : Obj)
    (hd : getProp req.body "data" = some (.obj fs)) :
    handle (exports.create env) s req =
      if (field fs "table_name").truthy = false then
        { reply := Reply.error 400 "Table must include a table_name", store := s }
      else if (field fs "capacity").truthy = false then
        { reply := Reply.error 400 "Table must include a capacity", store := s }
      else if jsLt env ((getProp (field fs "table_name") "length").getD .undefined) (.num 2) then
        { reply := Reply.error 400 "table_name must be at lest 2 characters", store := s }
      else if (jsLe env (field fs "capacity") (.num 0) || !(field fs "capacity").isInteger) then
        { reply := Reply.error 400 "capacity must be an integer greater than 0", store := s }
      else
        { reply := Reply.json 201 [.obj [("data", (service.create s
            (newTable (field fs "table_name") (field fs "capacity")
              (field fs "reservation_id"))).2)]],
          store := (service.create s
            (newTable (field fs "table_name") (field fs "capacity")
              (field fs "reservation_id"))).1 } := by
  have m1 : "Table must include a " ++ "table_name" = "Table must include a table_name" := by
    decide
  have m2 : "Table must include a " ++ "capacity" = "Table must include a capacity" := by
    decide
  simp only [handle, exports.create, runChain]
  rw [bodyDataHas_obj _ _ fs hd, m1]
  by_cases h1 : (field fs "table_name").truthy = true
  · rw [if_pos h1, if_neg (by simp [h1])]
    simp only []
    rw [bodyDataHas_obj _ _ fs hd, m2]
    by_cases h2 : (field fs "capacity").truthy = true
    · rw [if_pos h2, if_neg (by simp [h2])]
      simp only []
      rw [tableNameIsValidLength_obj env _ fs hd h1]
      by_cases h3 : jsLt env ((getProp (field fs "table_name") "length").getD .undefined)
          (.num 2) = true
      · rw [if_pos h3, if_pos h3]
      · rw [if_neg h3, if_neg h3]
        simp only []
        rw [capacityIsValidNumber_obj env _ fs hd]
        by_cases h4 : (jsLe env (field fs "capacity") (.num 0)
            || !(field fs "capacity").isInteger) = true
        · rw [if_pos h4, if_pos h4]
        · rw [if_neg h4, if_neg h4]
          simp only []
          rw [create_obj _ fs hd]
    · rw [if_neg h2, if_pos (by simp [h2])]
  · rw [if_neg h1, if_pos (by simp [h1])]

/-! ## The route `seatReservation` -/

theorem bodyDataHas_null (name : String) (c : Ctx)
    (hd : getProp c.req.body "data" = some .null) :
    bodyDataHas name c = Step.stop Reply.thrown c.store := by
  unfold bodyDataHas
  rw [hd]
  rfl

theorem bodyDataHas_other (name : String) (hn : name ≠ "length") (c : Ctx) (d : JsVal)
    (hd : getProp c.req.body "data" = some d) (hnull : d ≠ .null)
    (hobj : ∀ fs, d ≠ .obj fs) :
    bodyDataHas name c =
      Step.stop (Reply.error 400 ("Table must include a " ++ name)) c.store := by
  unfold bodyDataHas
  rw [hd]
  cases d with
  | null => exact absurd rfl hnull
  | obj fs => exact absurd rfl (hobj fs)
  | undefined => simp [orEmptyObject, getProp, fail, field, field?, JsVal.truthy]
  | bool b => simp [orEmptyObject, getProp, fail, JsVal.truthy]
  | num q => simp [orEmptyObject, getProp, fail, JsVal.truthy]
  | str x => simp [orEmptyObject, getProp, fail, hn, JsVal.truthy]
  | arr xs => simp [orEmptyObject, getProp, fail, hn, JsVal.truthy]

theorem tableExists_eq (env : Env) (c : Ctx) :
    tableExists env c =
      match tableRow c.store c.req.params.table_id with
      | some t => Step.next { c with locals := { c.locals with table := .obj t } }
      | none =>
        Step.stop (Reply.error 404
          ("Table " ++ env.toStr c.req.params.table_id ++ " cannot be found.")) c.store := by
  unfold tableExists
  simp only [read_eq_tableRow]
  cases tableRow c.store c.req.params.table_id with
  | none => simp [Miss.truthy_toJs, fail]
  | some t => simp [JsVal.truthy]

theorem checkReservationFromBody_obj (env : Env) (c : Ctx) (fs : Obj)
    (hd : getProp c.req.body "data" = some (.obj fs)) :
    checkReservationFromBody env c =
      match reservationRow c.store (field fs "reservation_id") with
      | some r => Step.next { c with locals := { c.locals with reservation := .obj r } }
      | none =>
        Step.stop (Reply.error 404
          ("Reservation " ++ env.toStr (field fs "reservation_id") ++ " cannot be found."))
          c.store := by
  unfold checkReservationFromBody
  rw [hd]
  simp only [getProp_obj, read_eq_reservationRow]
  cases reservationRow c.store (field fs "reservation_id") with
  | none => simp [Miss.truthy_toJs, fail]
  | some r => simp [JsVal.truthy]

/-- The guards of `seatReservation` that follow the two lookups. -/
theorem seat_guards_obj (env : Env) (c : Ctx) (t r : Obj)
    (ht : c.locals.table = .obj t) (hr : c.locals.reservation = .obj r) :
    runChain [checkIfSeated, checkIfOccupied env, checkCapacity env, Tables.seatReservation] c =
      if isSeated (field r "status") = true then
        { reply := Reply.error 400 "this reservation is already seated", store := c.store }
      else if (!(field t "reservation_id").isNull) = true then
        { reply := Reply.error 400
            ("Table " ++ env.toStr (field t "table_id") ++ " is occupied, choose different table"),
          store := c.store }
      else if jsGt env (field r "people") (field t "capacity") = true then
        { reply := Reply.error 400
            ("Table " ++ env.toStr (field t "table_id") ++ " can not seat "
              ++ env.toStr (field r "people") ++ " people, choose table with higher capacity"),
          store := c.store }
      else runChain [Tables.seatReservation] c := by
  have e1 : checkIfSeated c =
      if isSeated (field r "status") = true then
        Step.stop (Reply.error 400 "this reservation is already seated") c.store
      else Step.next c := by
    simp only [checkIfSeated, hr, getProp_obj, fail]
  have e2 : checkIfOccupied env c =
      if (!(field t "reservation_id").isNull) = true then
        Step.stop (Reply.error 400
          ("Table " ++ env.toStr (field t "table_id") ++ " is occupied, choose different table"))
          c.store
      else Step.next c := by
    simp only [checkIfOccupied, ht, getProp_obj, fail]
  have e3 : checkCapacity env c =
      if jsGt env (field r "people") (field t "capacity") = true then
        Step.stop (Reply.error 400
          ("Table " ++ env.toStr (field t "table_id") ++ " can not seat "
            ++ env.toStr (field r "people") ++ " people, choose table with higher capacity"))
          c.store
      else Step.next c := by
    simp only [checkCapacity, ht, hr, getProp_obj, fail]
  rw [runChain, e1]
  by_cases h1 : isSeated (field r "status") = true
  · rw [if_pos h1, if_pos h1]
  · rw [if_neg h1, if_neg h1]
    simp only []
    rw [runChain, e2]
    by_cases h2 : (!(field t "reservation_id").isNull) = true
    · rw [if_pos h2, if_pos h2]
    · rw [if_neg h2, if_neg h2]
      simp only []
      rw [runChain, e3]
      by_cases h3 : jsGt env (field r "people") (field t "capacity") = true
      · rw [if_pos h3, if_pos h3]
      · rw [if_neg h3, if_neg h3]

theorem seatReservation_obj (c : Ctx) (fs t r : Obj)
    (hd : getProp c.req.body "data" = some (.obj fs))
    (ht : c.locals.table = .obj t) (hr : c.locals.reservation = .obj r) :
    runChain [Tables.seatReservation] c =
      { reply := Reply.json 200
          [.obj [("tableData",
              (service.update c.store (seatedTable (.obj fs) (field t "table_id"))).2)],
           .obj [("reservationData",
              (reservationsService.update
                (service.update c.store (seatedTable (.obj fs) (field t "table_id"))).1
                (setField r "status" (.str "seated"))).2)]],
        store :=
          (reservationsService.update
            (service.update c.store (seatedTable (.obj fs) (field t "table_id"))).1
            (setField r "status" (.str "seated"))).1 } := by
  simp only [runChain, Tables.seatReservation, hd, ht, hr, getProp_obj, spread]

theorem seat_rows (env : Env) (s : Store) (req : Request) (fs t r : Obj)
    (hd : getProp req.body "data" = some (.obj fs))
    (hid : (field fs "reservation_id").truthy = true)
    (hr : reservationRow s (field fs "reservation_id") = some r)
    (ht : tableRow s req.params.table_id = some t) :
    handle (exports.seatReservation env) s req =
      runChain [checkIfSeated, checkIfOccupied env, checkCapacity env, Tables.seatReservation]
        { req := req, locals := { table := .obj t, reservation := .obj r }, store := s } := by
  simp only [handle, exports.seatReservation]
  rw [runChain, bodyDataHas_obj _ _ fs hd, if_pos hid]
  simp only []
  rw [runChain, checkReservationFromBody_obj env _ fs hd]
  simp only [hr]
  rw [runChain, tableExists_eq]
  simp only [ht]

theorem seat_no_table (env : Env) (s : Store) (req : Request) (fs r : Obj)
    (hd : getProp req.body "data" = some (.obj fs))
    (hid : (field fs "reservation_id").truthy = true)
    (hr : reservationRow s (field fs "reservation_id") = some r)
    (ht : tableRow s req.params.table_id = none) :
    handle (exports.seatReservation env) s req =
      { reply := Reply.error 404
          ("Table " ++ env.toStr req.params.table_id ++ " cannot be found."),
        store := s } := by
  simp only [handle, exports.seatReservation]
  rw [runChain, bodyDataHas_obj _ _ fs hd, if_pos hid]
  simp only []
  rw [runChain, checkReservationFromBody_obj env _ fs hd]
  simp only [hr]
  rw [runChain, tableExists_eq]
  simp only [ht]

theorem seat_no_reservation (env : Env) (s : Store) (req : Request) (fs : Obj)
    (hd : getProp req.body "data" = some (.obj fs))
    (hid : (field fs "reservation_id").truthy = true)
    (hr : reservationRow s (field fs "reservation_id") = none) :
    handle (exports.seatReservation env) s req =
      { reply := Reply.error 404
          ("Reservation " ++ env.toStr (field fs "reservation_id") ++ " cannot be found."),
        store := s } := by
  simp only [handle, exports.seatReservation]
  rw [runChain, bodyDataHas_obj _ _ fs hd, if_pos hid]
  simp only []
  rw [runChain, checkReservationFromBody_obj env _ fs hd]
  simp only [hr]

theorem seat_no_id (env : Env) (s : Store) (req : Request) (d : JsVal)
    (hd : getProp req.body "data" = some d) (hnull : d ≠ .null)
    (hid : (bodyReservationId req).truthy = false) :
    handle (exports.seatReservation env) s req =
      { reply := Reply.error 400 "Table must include a reservation_id", store := s } := by
  have m : "Table must include a " ++ "reservation_id" = "Table must include a reservation_id" := by
    decide
  simp only [handle, exports.seatReservation]
  by_cases hobj : ∃ fs, d = .obj fs
  · obtain ⟨fs, rfl⟩ := hobj
    have hid2 : ¬ (field fs "reservation_id").truthy = true := by
      simpa [bodyReservationId, hd, orEmptyObject, getProp_obj] using hid
    rw [runChain, bodyDataHas_obj _ _ fs hd, if_neg hid2, m]
  · rw [runChain, bodyDataHas_other _ (by decide) _ d hd hnull (fun fs h => hobj ⟨fs, h⟩), m]

theorem bodyReservationId_truthy (req : Request)
    (hid : (bodyReservationId req).truthy = true) :
    ∃ fs, getProp req.body "data" = some (.obj fs) ∧
      bodyReservationId req = field fs "reservation_id" := by
  unfold bodyReservationId at hid ⊢
  cases hd : getProp req.body "data" with
  | none => simp [hd, JsVal.truthy] at hid
  | some d =>
    rw [hd] at hid
    cases d <;> simp_all [orEmptyObject, getProp, JsVal.truthy, field, field?]

/-- The first violated guard of `seatGuards`, spelled out. -/
theorem firstViolated_seatGuards (env : Env) (s : Store) (req : Request) :
    firstViolated (seatGuards env s req) =
      if (bodyReservationId req).truthy = false then
        some (Reply.error 400 "Table must include a reservation_id")
      else if (reservationRow s (bodyReservationId req)).isNone = true then
        some (Reply.error 404
          ("Reservation " ++ env.toStr (bodyReservationId req) ++ " cannot be found."))
      else if (tableRow s req.params.table_id).isNone = true then
        some (Reply.error 404
          ("Table " ++ env.toStr req.params.table_id ++ " cannot be found."))
      else if isSeated (field ((reservationRow s (bodyReservationId req)).getD []) "status")
          = true then
        some (Reply.error 400 "this reservation is already seated")
      else if (field ((tableRow s req.params.table_id).getD []) "reservation_id").isNull
          = false then
        some (Reply.error 400
          ("Table " ++ env.toStr (field ((tableRow s req.params.table_id).getD []) "table_id")
            ++ " is occupied, choose different table"))
      else if jsGt env (field ((reservationRow s (bodyReservationId req)).getD []) "people")
          (field ((tableRow s req.params.table_id).getD []) "capacity") = true then
        some (Reply.error 400
          ("Table " ++ env.toStr (field ((tableRow s req.params.table_id).getD []) "table_id")
            ++ " can not seat "
            ++ env.toStr (field ((reservationRow s (bodyReservationId req)).getD []) "people")
            ++ " people, choose table with higher capacity"))
      else none := by
  simp only [seatGuards, firstViolated, Bool.not_eq_true']

/-- The guard order of `seatReservation` on every body but `{ data: null }`. For every store and
every request whose body carries a `data` that is absent or anything but `null`:
`seatReservation` answers with exactly the error of the first violated
guard of `seatGuards`, that is in the order (1) `reservation_id` present (truthy) in the body, (2)
reservation exists, (3) table exists, (4) reservation not already seated, (5) table not occupied,
(6) people not above capacity; it succeeds if and only if no guard is violated; and the guards
carry the statuses 400, 404, 404, 400, 400, 400. -/
theorem seat_guard_order (env : Env) (s : Store) (req : Request) (d : JsVal)
    (hd : getProp req.body "data" = some d) (hnull : d ≠ .null) :
    (firstViolated (seatGuards env s req) = none ↔
      (handle (exports.seatReservation env) s req).succeeded = true) ∧
    (∀ err, firstViolated (seatGuards env s req) = some err →
      (handle (exports.seatReservation env) s req).reply = err) ∧
    (seatGuards env s req).map (fun g => g.2.status)
      = [some 400, some 404, some 404, some 400, some 400, some 400] := by
  rw [← and_assoc]
  refine ⟨?_, rfl⟩
  rw [firstViolated_seatGuards]
  by_cases hid : (bodyReservationId req).truthy = false
  · rw [if_pos hid, seat_no_id env s req d hd hnull hid]
    simp [Result.succeeded]
  · rw [if_neg hid]
    have hid1 : (bodyReservationId req).truthy = true := by simpa using hid
    obtain ⟨fs, hfs, hrid⟩ := bodyReservationId_truthy req hid1
    rw [hrid] at hid1 ⊢
    cases hr : reservationRow s (field fs "reservation_id") with
    | none =>
      rw [seat_no_reservation env s req fs hfs hid1 hr]
      simp [Result.succeeded]
    | some r =>
      cases ht : tableRow s req.params.table_id with
      | none =>
        rw [seat_no_table env s req fs r hfs hid1 hr ht]
        simp [Result.succeeded]
      | some t =>
        rw [seat_rows env s req fs t r hfs hid1 hr ht, seat_guards_obj env _ t r rfl rfl]
        simp only [Option.isNone_some, Bool.false_eq_true, if_false, Option.getD_some]
        by_cases h1 : isSeated (field r "status") = true
        · simp [h1, Result.succeeded]
        · rw [if_neg h1, if_neg h1]
          by_cases h2 : (field t "reservation_id").isNull = false
          · simp [h2, Result.succeeded]
          · have h2b : ¬ ((!(field t "reservation_id").isNull) = true) := by simpa using h2
            rw [if_neg h2, if_neg h2b]
            by_cases h3 : jsGt env (field r "people") (field t "capacity") = true
            · simp [h3, Result.succeeded]
            · rw [if_neg h3, if_neg h3, seatReservation_obj _ fs t r hfs rfl rfl]
              simp [Result.succeeded]

theorem bodyDataHas_none (name : String) (c : Ctx) (hd : getProp c.req.body "data" = none) :
    bodyDataHas name c = Step.stop Reply.thrown c.store := by
  unfold bodyDataHas
  rw [hd]
  rfl

/-- A successful `seatReservation` found both rows and wrote both updates. -/
theorem seat_succeeded (env : Env) (s : Store) (req : Request)
    (h : (handle (exports.seatReservation env) s req).succeeded = true) :
    ∃ fs t r, getProp req.body "data" = some (.obj fs) ∧
      bodyReservationId req = field fs "reservation_id" ∧
      (field fs "reservation_id").truthy = true ∧
      reservationRow s (field fs "reservation_id") = some r ∧
      tableRow s req.params.table_id = some t ∧
      (handle (exports.seatReservation env) s req).store =
        (reservationsService.update
          (service.update s (seatedTable (.obj fs) (field t "table_id"))).1
          (setField r "status" (.str "seated"))).1 := by
  cases hd : getProp req.body "data" with
  | none =>
    simp only [handle, exports.seatReservation] at h
    rw [runChain, bodyDataHas_none _ _ hd] at h
    simp [Result.succeeded] at h
  | some d =>
    by_cases hnull : d = .null
    · subst hnull
      simp only [handle, exports.seatReservation] at h
      rw [runChain, bodyDataHas_null _ _ hd] at h
      simp [Result.succeeded] at h
    · by_cases hid : (bodyReservationId req).truthy = false
      · rw [seat_no_id env s req d hd hnull hid] at h
        simp [Result.succeeded] at h
      · have hid1 : (bodyReservationId req).truthy = true := by simpa using hid
        obtain ⟨fs, hfs, hrid⟩ := bodyReservationId_truthy req hid1
        rw [hrid] at hid1
        cases hr : reservationRow s (field fs "reservation_id") with
        | none =>
          rw [seat_no_reservation env s req fs hfs hid1 hr] at h
          simp [Result.succeeded] at h
        | some r =>
          cases ht : tableRow s req.params.table_id with
          | none =>
            rw [seat_no_table env s req fs r hfs hid1 hr ht] at h
            simp [Result.succeeded] at h
          | some t =>
            refine ⟨fs, t, r, hd ▸ hfs, hrid, hid1, hr, rfl, ?_⟩
            rw [seat_rows env s req fs t r hfs hid1 hr ht,
              seat_guards_obj env _ t r rfl rfl] at h ⊢
            split_ifs at h ⊢ with h1 h2 h3
            · simp [Result.succeeded] at h
            · simp [Result.succeeded] at h
            · simp [Result.succeeded] at h
            · rw [seatReservation_obj _ fs t r hfs rfl rfl]

theorem field?_of_truthy (o : Obj) (name : String) (h : (field o name).truthy = true) :
    field? o name = some (field o name) := by
  unfold field at h ⊢
  cases hf : field? o name with
  | none => simp [hf, JsVal.truthy] at h
  | some v => simp

/-- C2. Whenever `seatReservation` succeeds (every guard passed), in the resulting store the table
addressed by the path has `reservation_id` equal to the `reservation_id` of the request body,
and the reservation addressed by the body has `status` equal to `"seated"`. -/
theorem C2_seat_updates (env : Env) (s : Store) (req : Request)
    (h : (handle (exports.seatReservation env) s req).succeeded = true) :
    ∃ t2 r2,
      tableRow (handle (exports.seatReservation env) s req).store req.params.table_id
        = some t2 ∧
      field t2 "reservation_id" = bodyReservationId req ∧
      reservationRow (handle (exports.seatReservation env) s req).store
        (bodyReservationId req) = some r2 ∧
      field r2 "status" = .str "seated" := by
  obtain ⟨fs, t, r, hfs, hrid, hid, hr, ht, hs⟩ := seat_succeeded env s req h
  have htid : field? t "table_id" = some req.params.table_id := field?_of_tableRow _ _ _ ht
  have hridr : field? r "reservation_id" = some (field fs "reservation_id") :=
    field?_of_reservationRow _ _ _ hr
  have hrecT : field? (seatedTable (.obj fs) (field t "table_id")) "table_id"
      = some req.params.table_id := by
    rw [seatedTable, field?_setField_same, field_of_field? _ _ _ htid]
  have hrecT2 : field? (seatedTable (.obj fs) (field t "table_id")) "reservation_id"
      = some (field fs "reservation_id") := by
    rw [seatedTable, field?_setField_other _ _ _ _ (by decide)]
    exact field?_of_truthy fs _ hid
  have hrecR : field? (setField r "status" (.str "seated")) "reservation_id"
      = some (field fs "reservation_id") := by
    rw [field?_setField_other _ _ _ _ (by decide), hridr]
  rw [hs, hrid]
  refine ⟨mergeRow t (seatedTable (.obj fs) (field t "table_id")),
    mergeRow r (setField r "status" (.str "seated")), ?_, ?_, ?_, ?_⟩
  · show tableRow (service.update s _).1 _ = _
    rw [tableRow_update s _ _ _ hrecT, ht]
    simp only [Option.map_some', (hasId_iff _ _ _).2 htid, if_true]
  · exact field_mergeRow_of_mem _ _ _ _ hrecT2
  · show reservationRow (reservationsService.update _ _).1 _ = _
    rw [reservationRow_update _ _ _ _ hrecR]
    show Option.map _ (reservationRow s _) = _
    rw [hr]
    simp only [Option.map_some', (hasId_iff _ _ _).2 hridr, if_true]
  · exact field_mergeRow_of_mem _ _ _ _ (field?_setField_same _ _ _)

/-! ## Claims about `create` (C7 to C10) -/

/-- A successful `create` passed its four guards on an object `data` and stored the record built
from it. -/
theorem create_succeeded (env : Env) (s : Store) (req : Request)
    (h : (handle (exports.create env) s req).succeeded = true) :
    ∃ fs, getProp req.body "data" = some (.obj fs) ∧
      (field fs "table_name").truthy = true ∧
      (field fs "capacity").truthy = true ∧
      jsLt env ((getProp (field fs "table_name") "length").getD .undefined) (.num 2) = false ∧
      jsLe env (field fs "capacity") (.num 0) = false ∧
      (field fs "capacity").isInteger = true ∧
      handle (exports.create env) s req =
        { reply := Reply.json 201 [.obj [("data", (service.create s
            (newTable (field fs "table_name") (field fs "capacity")
              (field fs "reservation_id"))).2)]],
          store := (service.create s
            (newTable (field fs "table_name") (field fs "capacity")
              (field fs "reservation_id"))).1 } := by
  cases hd : getProp req.body "data" with
  | none =>
    simp only [handle, exports.create] at h
    rw [runChain, bodyDataHas_none _ _ hd] at h
    simp [Result.succeeded] at h
  | some d =>
    by_cases hnull : d = .null
    · subst hnull
      simp only [handle, exports.create] at h
      rw [runChain, bodyDataHas_null _ _ hd] at h
      simp [Result.succeeded] at h
    · by_cases hobj : ∃ fs, d = .obj fs
      · obtain ⟨fs, rfl⟩ := hobj
        refine ⟨fs, rfl, ?_⟩
        rw [create_eval env s req fs hd] at h ⊢
        split_ifs at h ⊢ with h1 h2 h3 h4
        · simp [Result.succeeded] at h
        · simp [Result.succeeded] at h
        · simp [Result.succeeded] at h
        · simp [Result.succeeded] at h
        · simp only [Bool.or_eq_true, not_or, Bool.not_eq_true, Bool.not_eq_false',
            Bool.not_eq_true'] at h1 h2 h3 h4
          simp [h1, h2, h3, h4.1, h4.2]
      · simp only [handle, exports.create] at h
        rw [runChain, bodyDataHas_other _ (by decide) _ d hd hnull (fun fs hfs => hobj ⟨fs, hfs⟩)]
          at h
        simp [Result.succeeded] at h

/-- C9. Whenever `create` succeeds (the input passed validation), the record handed to
`service.create` has the properties `table_name`, `capacity` and `reservation_id`, with
`table_name` and `capacity` exactly as supplied and `reservation_id` equal to `null` when the
input omits it; the created table is that record under a fresh `table_id`. -/
theorem C9_create_record (env : Env) (s : Store) (req : Request)
    (h : (handle (exports.create env) s req).succeeded = true) :
    ∃ fs record,
      getProp req.body "data" = some (.obj fs) ∧
      (handle (exports.create env) s req).store = (service.create s record).1 ∧
      (handle (exports.create env) s req).reply
        = Reply.json 201 [.obj [("data", .obj (("table_id", .num s.nextTableId) :: record))]] ∧
      (handle (exports.create env) s req).store.tables
        = s.tables ++ [("table_id", .num s.nextTableId) :: record] ∧
      field record "table_name" = field fs "table_name" ∧
      field record "capacity" = field fs "capacity" ∧
      (field? fs "reservation_id" = none → field record "reservation_id" = .null) ∧
      record.map Prod.fst = ["table_name", "capacity", "reservation_id"] := by
  obtain ⟨fs, hd, _, _, _, _, _, hres⟩ := create_succeeded env s req h
  refine ⟨fs, newTable (field fs "table_name") (field fs "capacity") (field fs "reservation_id"),
    hd, ?_, ?_, ?_, rfl, rfl, ?_, rfl⟩
  · rw [hres]
  · rw [hres]
    rfl
  · rw [hres]
    rfl
  · intro hnone
    simp [newTable, field, field?, hnone, JsVal.truthy]

theorem field_created_reservation_id (id table_name capacity reservation_id : JsVal) :
    field (("table_id", id) :: newTable table_name capacity reservation_id) "reservation_id"
      = if reservation_id.truthy = true then reservation_id else .null := by
  simp [newTable, field, field?]

/-- C10 (as amended). Whenever `create` succeeds, the created table has `reservation_id` equal to
`null` when the input omits `reservation_id` or supplies a falsy one, and equal to the supplied
`reservation_id` when that is truthy. -/
theorem C10_created_reservation_id (env : Env) (s : Store) (req : Request)
    (h : (handle (exports.create env) s req).succeeded = true) :
    ∃ fs row,
      getProp req.body "data" = some (.obj fs) ∧
      (handle (exports.create env) s req).store.tables = s.tables ++ [row] ∧
      (handle (exports.create env) s req).reply = Reply.json 201 [.obj [("data", .obj row)]] ∧
      ((field fs "reservation_id").truthy = false → field row "reservation_id" = .null) ∧
      ((field fs "reservation_id").truthy = true →
        field row "reservation_id" = field fs "reservation_id") := by
  obtain ⟨fs, hd, _, _, _, _, _, hres⟩ := create_succeeded env s req h
  refine ⟨fs, ("table_id", .num s.nextTableId) ::
    newTable (field fs "table_name") (field fs "capacity") (field fs "reservation_id"),
    hd, ?_, ?_, ?_, ?_⟩
  · rw [hres]
    rfl
  · rw [hres]
    rfl
  · intro hf
    rw [field_created_reservation_id, hf]
    rfl
  · intro ht
    rw [field_created_reservation_id, if_pos ht]

/-- C10, counterexample to the claim as stated: a valid create input that supplies
`reservation_id: 7` yields a table whose `reservation_id` is 7, not `null`. -/
theorem C10_counterexample :
    (handle (exports.create exampleEnv) emptyStore
      (request .undefined (dataBody [("table_name", .str "Bar #1"), ("capacity", .num 4),
        ("reservation_id", .num 7)]))).succeeded = true ∧
    (handle (exports.create exampleEnv) emptyStore
      (request .undefined (dataBody [("table_name", .str "Bar #1"), ("capacity", .num 4),
        ("reservation_id", .num 7)]))).store.tables
      = [[("table_id", .num 1), ("table_name", .str "Bar #1"), ("capacity", .num 4),
          ("reservation_id", .num 7)]] ∧
    JsVal.num 7 ≠ JsVal.null :=
  ⟨rfl, rfl, nofun⟩

theorem utf16Length_empty : utf16Length "" = 0 := by decide

theorem truthy_str_of_length (name : String) (h : 1 ≤ utf16Length name) :
    (JsVal.str name).truthy = true := by
  have hne : name ≠ "" := by
    intro he
    rw [he, utf16Length_empty] at h
    omega
  simp [JsVal.truthy, hne]

theorem length_str (name : String) :
    (getProp (.str name) "length").getD .undefined = .num (utf16Length name) := by
  simp [getProp]

theorem jsLt_num (env : Env) (a b : ℚ) : jsLt env (.num a) (.num b) = decide (a < b) := rfl

theorem jsLe_num (env : Env) (a b : ℚ) : jsLe env (.num a) (.num b) = decide (a ≤ b) := rfl

theorem truthy_num (q : ℚ) : (JsVal.num q).truthy = !decide (q = 0) := rfl

theorem isInteger_num (q : ℚ) : (JsVal.num q).isInteger = decide (q.den = 1) := rfl

theorem field_of_none (o : Obj) (name : String) (h : field? o name = none) :
    field o name = .undefined := by
  simp [field, h]

/-- C7 (as amended). For every create input with a valid capacity (a positive integer): `create`
fails with status 400 when `table_name` is missing, and when it is a string of length 0 or 1;
it succeeds when `table_name` is a string of length at least 2. The type of `table_name` is
not checked: a non-zero number is accepted as well. -/
theorem C7_table_name_length (env : Env) (s : Store) (req : Request) (fs : Obj) (q : ℚ)
    (hd : getProp req.body "data" = some (.obj fs))
    (hcap : field fs "capacity" = .num q) (hpos : 0 < q) (hint : q.den = 1) :
    (field? fs "table_name" = none →
      (handle (exports.create env) s req).reply
        = Reply.error 400 "Table must include a table_name") ∧
    (∀ name, field fs "table_name" = .str name → utf16Length name < 2 →
      ∃ message, (handle (exports.create env) s req).reply = Reply.error 400 message) ∧
    (∀ name, field fs "table_name" = .str name → 2 ≤ utf16Length name →
      (handle (exports.create env) s req).succeeded = true) ∧
    (∀ n : ℚ, field fs "table_name" = .num n → n ≠ 0 →
      (handle (exports.create env) s req).succeeded = true) := by
  have hq : ¬ q = 0 := ne_of_gt hpos
  have hq2 : ¬ q ≤ 0 := not_le.2 hpos
  rw [create_eval env s req fs hd, hcap]
  refine ⟨?_, ?_, ?_, ?_⟩
  · intro hnone
    rw [field_of_none _ _ hnone]
    simp [JsVal.truthy]
  · intro name hname hlen
    rw [hname, length_str, jsLt_num]
    by_cases hempty : name = ""
    · subst hempty
      exact ⟨"Table must include a table_name", by simp [JsVal.truthy]⟩
    · have hlt : ((utf16Length name : ℕ) : ℚ) < 2 := by exact_mod_cast hlen
      exact ⟨"table_name must be at lest 2 characters",
        by simp [JsVal.truthy, hempty, hq, hlt]⟩
  · intro name hname hlen
    rw [hname, length_str, jsLt_num, jsLe_num, isInteger_num]
    have ht := truthy_str_of_length name (by omega)
    have hlt : ¬ ((utf16Length name : ℕ) : ℚ) < 2 := by
      rw [not_lt]
      exact_mod_cast hlen
    simp [ht, truthy_num, hq, hlt, hq2, hint, Result.succeeded]
  · intro n hname hn
    rw [hname, jsLe_num, isInteger_num]
    have hl : jsLt env ((getProp (.num n) "length").getD .undefined) (.num 2) = false := rfl
    simp [truthy_num, hn, hq, hl, hq2, hint, Result.succeeded]

/-- C8 (as amended). For every create input with a valid `table_name` (a string of length at least
2): `create` fails with the 400 `capacity must be an integer greater than 0` when the capacity
is a negative number or a number that is not an integer, and succeeds when it is an integer of
at least 1; when the capacity is missing, and also when it is 0, it fails with the 400 `Table
must include a capacity` of the presence guard, which runs first and treats 0 as absent. -/
theorem C8_capacity_validation (env : Env) (s : Store) (req : Request) (fs : Obj)
    (name : String)
    (hd : getProp req.body "data" = some (.obj fs))
    (hname : field fs "table_name" = .str name) (hlen : 2 ≤ utf16Length name) :
    (∀ q : ℚ, field fs "capacity" = .num q → q < 0 →
      (handle (exports.create env) s req).reply
        = Reply.error 400 "capacity must be an integer greater than 0") ∧
    (∀ q : ℚ, field fs "capacity" = .num q → q.den ≠ 1 →
      (handle (exports.create env) s req).reply
        = Reply.error 400 "capacity must be an integer greater than 0") ∧
    (∀ q : ℚ, field fs "capacity" = .num q → 1 ≤ q → q.den = 1 →
      (handle (exports.create env) s req).succeeded = true) ∧
    (field? fs "capacity" = none →
      (handle (exports.create env) s req).reply
        = Reply.error 400 "Table must include a capacity") ∧
    (field fs "capacity" = .num 0 →
      (handle (exports.create env) s req).reply
        = Reply.error 400 "Table must include a capacity") := by
  have ht := truthy_str_of_length name (by omega)
  have hlt : ¬ ((utf16Length name : ℕ) : ℚ) < 2 := by
    rw [not_lt]
    exact_mod_cast hlen
  rw [create_eval env s req fs hd, hname, length_str, jsLt_num]
  refine ⟨?_, ?_, ?_, ?_, ?_⟩
  · intro q hcap hneg
    rw [hcap, jsLe_num, isInteger_num]
    have hq : ¬ q = 0 := ne_of_lt hneg
    have hq2 : q ≤ 0 := le_of_lt hneg
    simp [ht, truthy_num, hq, hlt, hq2]
  · intro q hcap hden
    rw [hcap, jsLe_num, isInteger_num]
    have hq : ¬ q = 0 := by
      intro h0
      rw [h0] at hden
      exact hden rfl
    simp [ht, truthy_num, hq, hlt, hden]
  · intro q hcap hone hden
    rw [hcap, jsLe_num, isInteger_num]
    have hpos : 0 < q := lt_of_lt_of_le one_pos hone
    have hq : ¬ q = 0 := ne_of_gt hpos
    have hq2 : ¬ q ≤ 0 := not_le.2 hpos
    simp [ht, truthy_num, hq, hlt, hq2, hden, Result.succeeded]
  · intro hnone
    rw [field_of_none _ _ hnone]
    simp [ht, show JsVal.truthy .undefined = false from rfl]
  · intro hzero
    rw [hzero]
    simp [ht, truthy_num]

/-- C7, counterexample to the claim as stated: the `table_name` 42 is not a string, and `create`
accepts it (`(42).length` is `undefined`, and `undefined < 2` is false). -/
theorem C7_counterexample :
    (handle (exports.create exampleEnv) emptyStore
      (request .undefined (dataBody [("table_name", .num 42), ("capacity", .num 4)]))).reply
      = Reply.json 201 [.obj [("data", .obj [("table_id", .num 1), ("table_name", .num 42),
          ("capacity", .num 4), ("reservation_id", .null)])]] :=
  rfl

/-- C8, counterexample to the claim as stated: with capacity 0 `create` fails with the error of
the presence guard, `Table must include a capacity`, which is not the error `capacity must be an
integer greater than 0`. -/
theorem C8_counterexample :
    (handle (exports.create exampleEnv) emptyStore
      (request .undefined (dataBody [("table_name", .str "Bar #1"), ("capacity", .num 0)]))).reply
      = Reply.error 400 "Table must include a capacity" ∧
    Reply.error 400 "Table must include a capacity"
      ≠ Reply.error 400 "capacity must be an integer greater than 0" :=
  ⟨rfl, by simp⟩

/-- C1, the code at the failing input: with the body `{ data: null }` guard (1) is the first
violated guard and its error is the 400 `Table must include a reservation_id`, but
`seatReservation` ends in a thrown `TypeError` (`bodyDataHas` reads `data["reservation_id"]` on
`null`), not in that error. -/
theorem C1_seat_null_data_throws :
    firstViolated (seatGuards exampleEnv sampleStore (request (.num 1) (.obj [("data", .null)])))
      = some (Reply.error 400 "Table must include a reservation_id") ∧
    (handle (exports.seatReservation exampleEnv) sampleStore
      (request (.num 1) (.obj [("data", .null)]))).reply = Reply.thrown :=
  ⟨rfl, rfl⟩

/-! ## Claims about `finishReservation` (C3 to C6) -/

/-- The rows of `danglingStore` are those left by `create` on an empty store with the body
`{ data: { table_name: "Bar #1", capacity: 4, reservation_id: 9 } }`. -/
theorem danglingStore_reachable :
    (handle (exports.create exampleEnv) emptyStore
      (request .undefined (dataBody [("table_name", .str "Bar #1"), ("capacity", .num 4),
        ("reservation_id", .num 9)]))).store = danglingStore :=
  rfl

/-- The route `finishReservation` when the table refers to a reservation that does not exist and a
missed lookup yields `null`: 404, rows untouched. -/
theorem finish_missing_reservation_null (env : Env) (s : Store) (req : Request) (t : Obj)
    (hmiss : env.miss = Miss.null)
    (ht : tableRow s req.params.table_id = some t)
    (hr : reservationRow s (field t "reservation_id") = none) :
    handle (exports.finishReservation env) s req =
      { reply := Reply.error 404
          ("Reservation " ++ env.toStr (field t "reservation_id") ++ " cannot be found."),
        store := s } := by
  have hnn : (reservationsService.read env s (field t "reservation_id")).isNull = true := by
    rw [read_eq_reservationRow, hr]
    simp [hmiss, Miss.toJs, JsVal.isNull]
  rw [finish_table_found env s req t ht, if_pos hnn]

/-- The route `finishReservation` when the table refers to a reservation that does not exist and a
missed lookup yields `undefined`: the test `reservation !== null` lets the request through, the
handler answers and the table is updated. -/
theorem finish_missing_reservation_undefined (env : Env) (s : Store) (req : Request) (t : Obj)
    (hmiss : env.miss = Miss.undefined)
    (ht : tableRow s req.params.table_id = some t)
    (hocc : (field t "reservation_id").isNull = false)
    (hr : reservationRow s (field t "reservation_id") = none) :
    (handle (exports.finishReservation env) s req).succeeded = true ∧
    (handle (exports.finishReservation env) s req).store.tables
      = updateRows "table_id" s.tables (setField t "reservation_id" .null) := by
  have hread : reservationsService.read env s (field t "reservation_id") = .undefined := by
    rw [read_eq_reservationRow, hr]
    simp [hmiss, Miss.toJs]
  rw [finish_table_found env s req t ht, hread, if_neg (by simp [JsVal.isNull]),
    if_neg (by simp [hocc])]
  exact ⟨rfl, rfl⟩

/-- Whatever a missed lookup yields, the lookup guard of `finishReservation` misbehaves on one of
two inputs: either the free table 1 of `sampleStore` is answered 404 (reservation not found)
instead of 400 (not occupied), or the table of `danglingStore`, whose reservation does not exist,
is finished with a 200. -/
theorem finish_lookup_guard_dilemma (env : Env) :
    (handle (exports.finishReservation env) sampleStore finishRequest).reply
      = Reply.error 404 ("Reservation " ++ env.toStr .null ++ " cannot be found.") ∨
    (handle (exports.finishReservation env) danglingStore
      finishRequest).succeeded = true := by
  cases hmiss : env.miss with
  | null =>
    left
    rw [finish_free_table_null_miss env sampleStore finishRequest _ hmiss
      rfl rfl rfl]
  | undefined =>
    right
    exact (finish_missing_reservation_undefined env danglingStore finishRequest
      _ hmiss rfl rfl rfl).1

/-- C5, the code at the failing input: table 1 of `danglingStore` refers to reservation 9, which
is not in the store; with a lookup that yields `undefined` on a miss, `finishReservation` does not
answer 404: it answers 200 and frees the table. -/
theorem C5_finish_dangling_reservation :
    reservationRow danglingStore (.num 9) = none ∧
    (handle (exports.finishReservation exampleEnv) danglingStore
      finishRequest).reply
      = Reply.json 200
          [.obj [("tableData", .obj [("table_id", .num 1), ("table_name", .str "Bar #1"),
              ("capacity", .num 4), ("reservation_id", .null)])],
           .obj [("reservationData", .undefined)]] ∧
    (handle (exports.finishReservation exampleEnv) danglingStore
      finishRequest).store.tables
      = [[("table_id", .num 1), ("table_name", .str "Bar #1"), ("capacity", .num 4),
          ("reservation_id", .null)]] :=
  ⟨rfl, rfl, rfl⟩

/-- With a lookup that yields `undefined` on a miss, the free table 1 of `sampleStore` gets the
400 of the occupancy guard (an instance of `finish_free_table`). -/
theorem finish_free_table_example :
    exampleEnv.miss = Miss.undefined ∧
    tableRow sampleStore finishRequest.params.table_id
      = some [("table_id", .num 1), ("table_name", .str "Bar #1"), ("capacity", .num 4),
          ("reservation_id", .null)] ∧
    handle (exports.finishReservation exampleEnv) sampleStore finishRequest =
      { reply := Reply.error 400 "Table 1 is not occupied", store := sampleStore } :=
  ⟨rfl, rfl, finish_free_table exampleEnv sampleStore finishRequest _ rfl rfl rfl⟩

/-- With a lookup that yields `undefined` on a miss, finishing table 1 of `seatedStore` twice
gets the 400 of the occupancy guard the second time (an instance of `finish_twice`). -/
theorem finish_twice_example :
    exampleEnv.miss = Miss.undefined ∧
    (handle (exports.finishReservation exampleEnv) seatedStore
      finishRequest).succeeded = true ∧
    handle (exports.finishReservation exampleEnv)
        (handle (exports.finishReservation exampleEnv) seatedStore
          finishRequest).store finishRequest =
      { reply := Reply.error 400 "Table 1 is not occupied",
        store := (handle (exports.finishReservation exampleEnv) seatedStore
          finishRequest).store } :=
  ⟨rfl, rfl, finish_twice exampleEnv seatedStore finishRequest rfl rfl⟩

/-- C4, the code at the failing input: with a lookup that yields `null` on a miss, table 1 of
`sampleStore` exists and its `reservation_id` is `null`, yet `finishReservation` answers the 404
`Reservation null cannot be found.` of the reservation lookup, which runs before the occupancy
guard, and not the 400 `Table 1 is not occupied`; the rows are left as they were. -/
theorem C4_finish_free_table_not_found :
    nullMissEnv.miss = Miss.null ∧
    tableRow sampleStore finishRequest.params.table_id
      = some [("table_id", .num 1), ("table_name", .str "Bar #1"), ("capacity", .num 4),
          ("reservation_id", .null)] ∧
    handle (exports.finishReservation nullMissEnv) sampleStore finishRequest =
      { reply := Reply.error 404 "Reservation null cannot be found.", store := sampleStore } ∧
    (handle (exports.finishReservation nullMissEnv) sampleStore finishRequest).reply ≠
      Reply.error 400 "Table 1 is not occupied" :=
  ⟨rfl, rfl, rfl, fun h => by
    have h2 : Reply.error 404 "Reservation null cannot be found." =
        Reply.error 400 "Table 1 is not occupied" := h
    simp at h2⟩

/-- C6, the code at the failing input: with a lookup that yields `null` on a miss, finishing
table 1 of `seatedStore` succeeds, and the same request run again on the resulting store answers
the 404 `Reservation null cannot be found.` of the reservation lookup, not the 400 `Table 1 is
not occupied`; the second call leaves the rows as the first left them. -/
theorem C6_second_finish_not_found :
    nullMissEnv.miss = Miss.null ∧
    (handle (exports.finishReservation nullMissEnv) seatedStore
      finishRequest).succeeded = true ∧
    handle (exports.finishReservation nullMissEnv)
        (handle (exports.finishReservation nullMissEnv) seatedStore
          finishRequest).store finishRequest =
      { reply := Reply.error 404 "Reservation null cannot be found.",
        store := (handle (exports.finishReservation nullMissEnv) seatedStore
          finishRequest).store } ∧
    (handle (exports.finishReservation nullMissEnv)
        (handle (exports.finishReservation nullMissEnv) seatedStore
          finishRequest).store finishRequest).reply ≠
      Reply.error 400 "Table 1 is not occupied" :=
  ⟨rfl, rfl, rfl, fun h => by
    have h2 : Reply.error 404 "Reservation null cannot be found." =
        Reply.error 400 "Table 1 is not occupied" := h
    simp at h2⟩

/-! ## Witnesses -/

/-- C3, witness: table 1 of `seatedStore` is occupied by reservation 7, which exists. -/
theorem C3_witness :
    tableRow seatedStore finishRequest.params.table_id
      = some [("table_id", .num 1), ("table_name", .str "Bar #1"), ("capacity", .num 4),
          ("reservation_id", .num 7)] ∧
    reservationRow seatedStore (.num 7)
      = some [("reservation_id", .num 7), ("people", .num 4), ("status", .str "seated")] ∧
    ∃ bodies t2 r2,
      (handle (exports.finishReservation exampleEnv) seatedStore
        finishRequest).reply = Reply.json 200 bodies ∧
      tableRow (handle (exports.finishReservation exampleEnv) seatedStore
        finishRequest).store finishRequest.params.table_id
        = some t2 ∧
      field t2 "reservation_id" = .null ∧
      reservationRow (handle (exports.finishReservation exampleEnv) seatedStore
        finishRequest).store (.num 7) = some r2 ∧
      field r2 "status" = .str "finished" :=
  ⟨rfl, rfl,
    C3_finishReservation_frees_table exampleEnv seatedStore finishRequest
      [("table_id", .num 1), ("table_name", .str "Bar #1"), ("capacity", .num 4),
        ("reservation_id", .num 7)]
      [("reservation_id", .num 7), ("people", .num 4), ("status", .str "seated")]
      rfl rfl rfl⟩

/-- C2, witness: seating reservation 7 at the free table 1 of `sampleStore` succeeds. -/
theorem C2_witness :
    (handle (exports.seatReservation exampleEnv) sampleStore seatRequest).succeeded = true ∧
    ∃ t2 r2,
      tableRow (handle (exports.seatReservation exampleEnv) sampleStore seatRequest).store
        seatRequest.params.table_id = some t2 ∧
      field t2 "reservation_id" = bodyReservationId seatRequest ∧
      reservationRow (handle (exports.seatReservation exampleEnv) sampleStore seatRequest).store
        (bodyReservationId seatRequest) = some r2 ∧
      field r2 "status" = .str "seated" :=
  ⟨rfl, C2_seat_updates exampleEnv sampleStore seatRequest rfl⟩

/-- An instance of `seat_guard_order`: the request `seatRequest` on `seatedStore` has an object
for `data`. -/
theorem seat_guard_order_example :
    getProp seatRequest.body "data" = some (.obj [("reservation_id", .num 7)]) ∧
    ((firstViolated (seatGuards exampleEnv seatedStore seatRequest) = none ↔
      (handle (exports.seatReservation exampleEnv) seatedStore seatRequest).succeeded = true) ∧
    (∀ err, firstViolated (seatGuards exampleEnv seatedStore seatRequest) = some err →
      (handle (exports.seatReservation exampleEnv) seatedStore seatRequest).reply = err) ∧
    (seatGuards exampleEnv seatedStore seatRequest).map (fun g => g.2.status)
      = [some 400, some 404, some 404, some 400, some 400, some 400]) :=
  ⟨rfl, seat_guard_order exampleEnv seatedStore seatRequest _ rfl nofun⟩

/-- C7, witness: `createRequest` carries the valid capacity 4. -/
theorem C7_witness :
    getProp createRequest.body
      "data" = some (.obj [("table_name", .str "T1"), ("capacity", .num 4)]) ∧
    (0 : ℚ) < 4 ∧
    ((field? [("table_name", JsVal.str "T1"), ("capacity", JsVal.num 4)] "table_name" = none →
      (handle (exports.create exampleEnv) emptyStore
        createRequest).reply
        = Reply.error 400 "Table must include a table_name") ∧
    (∀ name, field [("table_name", JsVal.str "T1"), ("capacity", JsVal.num 4)] "table_name"
        = .str name → utf16Length name < 2 →
      ∃ message, (handle (exports.create exampleEnv) emptyStore
        createRequest).reply
        = Reply.error 400 message) ∧
    (∀ name, field [("table_name", JsVal.str "T1"), ("capacity", JsVal.num 4)] "table_name"
        = .str name → 2 ≤ utf16Length name →
      (handle (exports.create exampleEnv) emptyStore
        createRequest
        ).succeeded = true) ∧
    (∀ n : ℚ, field [("table_name", JsVal.str "T1"), ("capacity", JsVal.num 4)] "table_name"
        = .num n → n ≠ 0 →
      (handle (exports.create exampleEnv) emptyStore
        createRequest
        ).succeeded = true)) :=
  ⟨rfl, by decide,
    C7_table_name_length exampleEnv emptyStore
      createRequest
      [("table_name", .str "T1"), ("capacity", .num 4)] 4 rfl rfl (by decide) rfl⟩

/-- C8, witness: the `table_name` `"T1"` is valid, and capacity 1 is accepted. -/
theorem C8_witness :
    field [("table_name", JsVal.str "T1"), ("capacity", JsVal.num 1)] "table_name" = .str "T1" ∧
    2 ≤ utf16Length "T1" ∧
    (handle (exports.create exampleEnv) emptyStore
      (request .undefined (dataBody [("table_name", .str "T1"), ("capacity", .num 1)]))
      ).succeeded = true :=
  ⟨rfl, by decide,
    (C8_capacity_validation exampleEnv emptyStore
      (request .undefined (dataBody [("table_name", .str "T1"), ("capacity", .num 1)]))
      [("table_name", .str "T1"), ("capacity", .num 1)] "T1" rfl rfl (by decide)).2.2.1 1 rfl
      (le_refl 1) rfl⟩

/-- C9, witness: `createRequest` on the empty store succeeds. -/
theorem C9_witness :
    (handle (exports.create exampleEnv) emptyStore
      createRequest
      ).succeeded = true ∧
    ∃ fs record,
      getProp createRequest.body
        "data" = some (.obj fs) ∧
      (handle (exports.create exampleEnv) emptyStore
        createRequest).store
        = (service.create emptyStore record).1 ∧
      (handle (exports.create exampleEnv) emptyStore
        createRequest).reply
        = Reply.json 201
            [.obj [("data", .obj (("table_id", .num emptyStore.nextTableId) :: record))]] ∧
      (handle (exports.create exampleEnv) emptyStore
        createRequest
        ).store.tables
        = emptyStore.tables ++ [("table_id", .num emptyStore.nextTableId) :: record] ∧
      field record "table_name" = field fs "table_name" ∧
      field record "capacity" = field fs "capacity" ∧
      (field? fs "reservation_id" = none → field record "reservation_id" = .null) ∧
      record.map Prod.fst = ["table_name", "capacity", "reservation_id"] :=
  ⟨rfl, C9_create_record exampleEnv emptyStore
    createRequest rfl⟩

/-- C10, witness: `createRequest` on the empty store succeeds. -/
theorem C10_witness :
    (handle (exports.create exampleEnv) emptyStore
      createRequest
      ).succeeded = true ∧
    ∃ fs row,
      getProp createRequest.body
        "data" = some (.obj fs) ∧
      (handle (exports.create exampleEnv) emptyStore
        createRequest
        ).store.tables = emptyStore.tables ++ [row] ∧
      (handle (exports.create exampleEnv) emptyStore
        createRequest).reply
        = Reply.json 201 [.obj [("data", .obj row)]] ∧
      ((field fs "reservation_id").truthy = false → field row "reservation_id" = .null) ∧
      ((field fs "reservation_id").truthy = true →
        field row "reservation_id" = field fs "reservation_id") :=
  ⟨rfl, C10_created_reservation_id exampleEnv emptyStore
    createRequest rfl⟩

/-! ## Claims about seating (C11 to C13) -/

/-- On two numbers `a > b` is the numeric comparison. -/
theorem jsGt_num (env : Env) (a b : ℚ) : jsGt env (.num a) (.num b) = decide (b < a) := rfl

theorem isNull_of_truthy (v : JsVal) (h : v.truthy = true) : v.isNull = false := by
  cases v <;> simp_all [JsVal.truthy, JsVal.isNull]

/-- The route `seatReservation` once both rows are found, the reservation is not seated and the
table is free: the capacity guard, then the handler. -/
theorem seat_free_table (env : Env) (s : Store) (req : Request) (t r : Obj)
    (hid : (bodyReservationId req).truthy = true)
    (hr : reservationRow s (bodyReservationId req) = some r)
    (ht : tableRow s req.params.table_id = some t)
    (hns : isSeated (field r "status") = false)
    (hfree : (field t "reservation_id").isNull = true) :
    ∃ fs, getProp req.body "data" = some (.obj fs) ∧
      bodyReservationId req = field fs "reservation_id" ∧
      handle (exports.seatReservation env) s req =
        if jsGt env (field r "people") (field t "capacity") = true then
          { reply := Reply.error 400
              ("Table " ++ env.toStr (field t "table_id") ++ " can not seat "
                ++ env.toStr (field r "people") ++ " people, choose table with higher capacity"),
            store := s }
        else
          { reply := Reply.json 200
              [.obj [("tableData",
                  (service.update s (seatedTable (.obj fs) (field t "table_id"))).2)],
               .obj [("reservationData",
                  (reservationsService.update
                    (service.update s (seatedTable (.obj fs) (field t "table_id"))).1
                    (setField r "status" (.str "seated"))).2)]],
            store :=
              (reservationsService.update
                (service.update s (seatedTable (.obj fs) (field t "table_id"))).1
                (setField r "status" (.str "seated"))).1 } := by
  obtain ⟨fs, hfs, hrid⟩ := bodyReservationId_truthy req hid
  rw [hrid] at hid hr
  refine ⟨fs, hfs, hrid, ?_⟩
  rw [seat_rows env s req fs t r hfs hid hr ht, seat_guards_obj env _ t r rfl rfl,
    if_neg (by simp [hns]), if_neg (by simp [hfree])]
  by_cases h3 : jsGt env (field r "people") (field t "capacity") = true
  · rw [if_pos h3, if_pos h3]
  · rw [if_neg h3, if_neg h3, seatReservation_obj _ fs t r hfs rfl rfl]

/-- C11. For every existing free table and existing reservation that is not seated, named by the
request: `seatReservation` fails with the capacity conflict (status 400) if and only if
`reservation.people > table.capacity`, and succeeds if and only if that comparison is false; when
both are numbers the comparison is the numeric one, so a party as large as the capacity is
accepted. -/
theorem C11_capacity_conflict (env : Env) (s : Store) (req : Request) (t r : Obj)
    (hid : (bodyReservationId req).truthy = true)
    (hr : reservationRow s (bodyReservationId req) = some r)
    (ht : tableRow s req.params.table_id = some t)
    (hns : isSeated (field r "status") = false)
    (hfree : (field t "reservation_id").isNull = true) :
    ((handle (exports.seatReservation env) s req).reply
        = Reply.error 400
            ("Table " ++ env.toStr (field t "table_id") ++ " can not seat "
              ++ env.toStr (field r "people") ++ " people, choose table with higher capacity")
      ↔ jsGt env (field r "people") (field t "capacity") = true) ∧
    ((handle (exports.seatReservation env) s req).succeeded = true
      ↔ jsGt env (field r "people") (field t "capacity") = false) ∧
    (∀ people capacity : ℚ,
      field r "people" = .num people → field t "capacity" = .num capacity →
      (jsGt env (field r "people") (field t "capacity") = true ↔ people > capacity)) := by
  obtain ⟨fs, _, _, heval⟩ := seat_free_table env s req t r hid hr ht hns hfree
  rw [heval]
  refine ⟨?_, ?_, ?_⟩
  · by_cases h3 : jsGt env (field r "people") (field t "capacity") = true
    · simp [h3]
    · simp [h3]
  · by_cases h3 : jsGt env (field r "people") (field t "capacity") = true
    · simp [h3, Result.succeeded]
    · simp [h3, Result.succeeded]
  · intro people capacity hp hc
    rw [hp, hc, jsGt_num]
    simp

/-- After a successful `seatReservation` the table refers to the reservation of the request, and
every other reservation row is as it was. -/
theorem seat_succeeded_rows (env : Env) (s : Store) (req : Request)
    (h : (handle (exports.seatReservation env) s req).succeeded = true) :
    (∃ t2, tableRow (handle (exports.seatReservation env) s req).store req.params.table_id
        = some t2 ∧
      field? t2 "table_id" = some req.params.table_id ∧
      field? t2 "reservation_id" = some (bodyReservationId req)) ∧
    (bodyReservationId req).truthy = true ∧
    (∀ id r, id ≠ bodyReservationId req → reservationRow s id = some r →
      reservationRow (handle (exports.seatReservation env) s req).store id = some r) := by
  obtain ⟨fs, t, r, hfs, hrid, hid, hr, ht, hs⟩ := seat_succeeded env s req h
  have htid : field? t "table_id" = some req.params.table_id := field?_of_tableRow _ _ _ ht
  have hridr : field? r "reservation_id" = some (field fs "reservation_id") :=
    field?_of_reservationRow _ _ _ hr
  have hrecT : field? (seatedTable (.obj fs) (field t "table_id")) "table_id"
      = some req.params.table_id := by
    rw [seatedTable, field?_setField_same, field_of_field? _ _ _ htid]
  have hrecT2 : field? (seatedTable (.obj fs) (field t "table_id")) "reservation_id"
      = some (field fs "reservation_id") := by
    rw [seatedTable, field?_setField_other _ _ _ _ (by decide)]
    exact field?_of_truthy fs _ hid
  have hrecR : field? (setField r "status" (.str "seated")) "reservation_id"
      = some (field fs "reservation_id") := by
    rw [field?_setField_other _ _ _ _ (by decide), hridr]
  rw [hs, hrid]
  refine ⟨⟨mergeRow t (seatedTable (.obj fs) (field t "table_id")), ?_, ?_, ?_⟩, hid, ?_⟩
  · show tableRow (service.update s _).1 _ = _
    rw [tableRow_update s _ _ _ hrecT, ht]
    simp only [Option.map_some', (hasId_iff _ _ _).2 htid, if_true]
  · rw [field?_mergeRow, hrecT]
  · rw [field?_mergeRow, hrecT2]
  · intro id r2 hne hr2
    show reservationRow (reservationsService.update _ _).1 _ = _
    rw [reservationRow_update _ _ _ _ hrecR]
    show Option.map _ (reservationRow s _) = _
    rw [hr2]
    have hr2id : field? r2 "reservation_id" = some id := field?_of_reservationRow _ _ _ hr2
    have hno : ¬ hasId "reservation_id" (field fs "reservation_id") r2 = true := by
      rw [hasId_iff, hr2id]
      intro he
      exact hne (Option.some.inj he)
    simp only [Option.map_some', if_neg hno]

/-- The route `seatReservation` on an occupied table, once both rows are found and the reservation
is not seated: the occupancy guard answers. -/
theorem seat_occupied_table (env : Env) (s : Store) (req : Request) (t r : Obj)
    (hid : (bodyReservationId req).truthy = true)
    (hr : reservationRow s (bodyReservationId req) = some r)
    (ht : tableRow s req.params.table_id = some t)
    (hns : isSeated (field r "status") = false)
    (hocc : (field t "reservation_id").isNull = false) :
    handle (exports.seatReservation env) s req =
      { reply := Reply.error 400
          ("Table " ++ env.toStr (field t "table_id") ++ " is occupied, choose different table"),
        store := s } := by
  obtain ⟨fs, hfs, hrid⟩ := bodyReservationId_truthy req hid
  rw [hrid] at hid hr
  rw [seat_rows env s req fs t r hfs hid hr ht, seat_guards_obj env _ t r rfl rfl,
    if_neg (by simp [hns]), if_pos (by simp [hocc])]

/-- C12. Whenever `seatReservation` succeeds for a table and a reservation, a following
`seatReservation` for the same table that names a different existing reservation, itself not
seated, fails with the 400 `Table <id> is occupied, choose different table`, changes no row, and
the table still refers to the first reservation. -/
theorem C12_second_seat_conflict (env : Env) (s : Store) (req1 req2 : Request) (r2 : Obj)
    (h1 : (handle (exports.seatReservation env) s req1).succeeded = true)
    (hsame : req2.params.table_id = req1.params.table_id)
    (hid2 : (bodyReservationId req2).truthy = true)
    (hne : bodyReservationId req2 ≠ bodyReservationId req1)
    (hr2 : reservationRow s (bodyReservationId req2) = some r2)
    (hns : isSeated (field r2 "status") = false) :
    handle (exports.seatReservation env) (handle (exports.seatReservation env) s req1).store req2
      = { reply := Reply.error 400
            ("Table " ++ env.toStr req1.params.table_id
              ++ " is occupied, choose different table"),
          store := (handle (exports.seatReservation env) s req1).store } ∧
    ∃ t2, tableRow (handle (exports.seatReservation env) s req1).store req1.params.table_id
        = some t2 ∧
      field t2 "reservation_id" = bodyReservationId req1 := by
  obtain ⟨⟨t2, ht2, htid, hres⟩, hid1, hkeep⟩ := seat_succeeded_rows env s req1 h1
  have hocc : (field t2 "reservation_id").isNull = false := by
    rw [field_of_field? _ _ _ hres]
    exact isNull_of_truthy _ hid1
  refine ⟨?_, t2, ht2, field_of_field? _ _ _ hres⟩
  rw [seat_occupied_table env _ req2 t2 r2 hid2 (hkeep _ _ hne hr2) (hsame ▸ ht2) hns hocc,
    field_of_field? _ _ _ htid]

/-- C13 (as amended). A finished reservation is not terminal: `seatReservation` rejects a
reservation for its status only when that is `"seated"`, so a reservation whose status is
`"finished"` is seated again whenever the table exists, is free and is large enough, and its
status becomes `"seated"`. -/
theorem C13_finished_is_seated_again (env : Env) (s : Store) (req : Request) (t r : Obj)
    (hid : (bodyReservationId req).truthy = true)
    (hr : reservationRow s (bodyReservationId req) = some r)
    (hfin : field r "status" = .str "finished")
    (ht : tableRow s req.params.table_id = some t)
    (hfree : (field t "reservation_id").isNull = true)
    (hfit : jsGt env (field r "people") (field t "capacity") = false) :
    (handle (exports.seatReservation env) s req).succeeded = true ∧
    ∃ t2 r2,
      tableRow (handle (exports.seatReservation env) s req).store req.params.table_id
        = some t2 ∧
      field t2 "reservation_id" = bodyReservationId req ∧
      reservationRow (handle (exports.seatReservation env) s req).store
        (bodyReservationId req) = some r2 ∧
      field r2 "status" = .str "seated" := by
  have hns : isSeated (field r "status") = false := by
    rw [hfin]
    decide
  obtain ⟨fs, hfs, hrid, heval⟩ := seat_free_table env s req t r hid hr ht hns hfree
  have hok : (handle (exports.seatReservation env) s req).succeeded = true := by
    rw [heval, if_neg (by simp [hfit])]
    rfl
  refine ⟨hok, ?_⟩
  obtain ⟨⟨t2, ht2, _, hres⟩, _, _⟩ := seat_succeeded_rows env s req hok
  have htidr : field? r "reservation_id" = some (bodyReservationId req) :=
    field?_of_reservationRow _ _ _ hr
  have hrecR : field? (setField r "status" (.str "seated")) "reservation_id"
      = some (bodyReservationId req) := by
    rw [field?_setField_other _ _ _ _ (by decide), htidr]
  refine ⟨t2, mergeRow r (setField r "status" (.str "seated")), ht2,
    field_of_field? _ _ _ hres, ?_, field_mergeRow_of_mem _ _ _ _ (field?_setField_same _ _ _)⟩
  rw [heval, if_neg (by simp [hfit])]
  show reservationRow (reservationsService.update _ _).1 _ = _
  rw [reservationRow_update _ _ _ _ hrecR]
  show Option.map _ (reservationRow s _) = _
  rw [hr]
  simp only [Option.map_some', (hasId_iff _ _ _).2 htidr, if_true]

/-! ## Failed calls change nothing (C15) -/

/-- A chain of middleware that each keep the rows leaves the rows as they were unless the request
is answered. -/
theorem runChain_keeps (chain : List Middleware)
    (hchain : ∀ m ∈ chain, ∀ c : Ctx, (m c).keeps c.store) (c : Ctx)
    (h : (runChain chain c).succeeded = false) : (runChain chain c).store = c.store := by
  induction chain generalizing c with
  | nil => rfl
  | cons m rest ih =>
    have hm := hchain m (List.mem_cons_self _ _) c
    rw [runChain] at h ⊢
    cases hstep : m c with
    | next c2 =>
      rw [hstep] at hm h
      simp only [] at h ⊢
      rw [ih (fun m2 hm2 => hchain m2 (List.mem_cons_of_mem _ hm2)) c2 h]
      exact hm
    | stop reply store =>
      rw [hstep] at hm h
      simp only [] at h ⊢
      cases reply with
      | json status bodies => simp [Result.succeeded] at h
      | error status message => exact hm
      | thrown => exact hm
      | fallthrough => exact hm

theorem bodyDataHas_keeps (name : String) (c : Ctx) : (bodyDataHas name c).keeps c.store := by
  unfold bodyDataHas
  split
  · simp [throwTypeError, Step.keeps]
  · simp only []
    split
    · simp [throwTypeError, Step.keeps]
    · split <;> simp [fail, Step.keeps]

theorem tableNameIsValidLength_keeps (env : Env) (c : Ctx) :
    (tableNameIsValidLength env c).keeps c.store := by
  unfold tableNameIsValidLength
  split
  · simp [throwTypeError, Step.keeps]
  · split
    · simp [throwTypeError, Step.keeps]
    · split
      · simp [throwTypeError, Step.keeps]
      · split <;> simp [fail, Step.keeps]

theorem capacityIsValidNumber_keeps (env : Env) (c : Ctx) :
    (capacityIsValidNumber env c).keeps c.store := by
  unfold capacityIsValidNumber
  split
  · simp [throwTypeError, Step.keeps]
  · split
    · simp [throwTypeError, Step.keeps]
    · split <;> simp [fail, Step.keeps]

theorem tableExists_keeps (env : Env) (c : Ctx) : (tableExists env c).keeps c.store := by
  unfold tableExists
  simp only []
  split <;> simp [fail, Step.keeps]

theorem checkReservationFromBody_keeps (env : Env) (c : Ctx) :
    (checkReservationFromBody env c).keeps c.store := by
  unfold checkReservationFromBody
  split
  · simp [throwTypeError, Step.keeps]
  · split
    · simp [throwTypeError, Step.keeps]
    · simp only []
      split <;> simp [fail, Step.keeps]

theorem checkReservationFromTable_keeps (env : Env) (c : Ctx) :
    (checkReservationFromTable env c).keeps c.store := by
  unfold checkReservationFromTable
  split
  · simp [throwTypeError, Step.keeps]
  · simp only []
    split <;> simp [fail, Step.keeps]

theorem checkCapacity_keeps (env : Env) (c : Ctx) : (checkCapacity env c).keeps c.store := by
  unfold checkCapacity
  split
  · simp [throwTypeError, Step.keeps]
  · split
    · simp [throwTypeError, Step.keeps]
    · split
      · split <;> simp [fail, throwTypeError, Step.keeps]
      · simp [Step.keeps]

theorem checkIfOccupied_keeps (env : Env) (c : Ctx) : (checkIfOccupied env c).keeps c.store := by
  unfold checkIfOccupied
  split
  · simp [throwTypeError, Step.keeps]
  · split
    · split <;> simp [fail, throwTypeError, Step.keeps]
    · simp [Step.keeps]

theorem checkIfNotOccupied_keeps (env : Env) (c : Ctx) :
    (checkIfNotOccupied env c).keeps c.store := by
  unfold checkIfNotOccupied
  split
  · simp [throwTypeError, Step.keeps]
  · split
    · split <;> simp [fail, throwTypeError, Step.keeps]
    · simp [Step.keeps]

theorem checkIfSeated_keeps (c : Ctx) : (checkIfSeated c).keeps c.store := by
  unfold checkIfSeated
  split
  · simp [throwTypeError, Step.keeps]
  · split <;> simp [fail, Step.keeps]

theorem create_keeps (c : Ctx) : (Tables.create c).keeps c.store := by
  unfold Tables.create
  split
  · simp [throwTypeError, Step.keeps]
  · simp only []
    split <;> simp [throwTypeError, Step.keeps]

theorem seatReservation_keeps (c : Ctx) : (Tables.seatReservation c).keeps c.store := by
  unfold Tables.seatReservation
  split
  · simp [throwTypeError, Step.keeps]
  · split <;> simp [throwTypeError, Step.keeps]

theorem finishReservation_keeps (c : Ctx) : (Tables.finishReservation c).keeps c.store := by
  simp [Tables.finishReservation, Step.keeps]

/-- A call that does not succeed leaves the rows as they were. -/
theorem failed_call_keeps (env : Env) (s : Store) (call : Call)
    (h : (call.handle env s).succeeded = false) : (call.handle env s).store = s := by
  cases call with
  | create req =>
    refine runChain_keeps (exports.create env) ?_ _ h
    intro m hm c
    simp only [exports.create, List.mem_cons, List.mem_singleton, List.not_mem_nil,
      or_false] at hm
    rcases hm with rfl | rfl | rfl | rfl | rfl
    · exact bodyDataHas_keeps _ c
    · exact bodyDataHas_keeps _ c
    · exact tableNameIsValidLength_keeps env c
    · exact capacityIsValidNumber_keeps env c
    · exact create_keeps c
  | seatReservation req =>
    refine runChain_keeps (exports.seatReservation env) ?_ _ h
    intro m hm c
    simp only [exports.seatReservation, List.mem_cons, List.mem_singleton, List.not_mem_nil,
      or_false] at hm
    rcases hm with rfl | rfl | rfl | rfl | rfl | rfl | rfl
    · exact bodyDataHas_keeps _ c
    · exact checkReservationFromBody_keeps env c
    · exact tableExists_keeps env c
    · exact checkIfSeated_keeps c
    · exact checkIfOccupied_keeps env c
    · exact checkCapacity_keeps env c
    · exact seatReservation_keeps c
  | finishReservation req =>
    refine runChain_keeps (exports.finishReservation env) ?_ _ h
    intro m hm c
    simp only [exports.finishReservation, List.mem_cons, List.mem_singleton, List.not_mem_nil,
      or_false] at hm
    rcases hm with rfl | rfl | rfl | rfl
    · exact tableExists_keeps env c
    · exact checkReservationFromTable_keeps env c
    · exact checkIfNotOccupied_keeps env c
    · exact finishReservation_keeps c

/-- C15. For every call to `create`, `seatReservation` or `finishReservation` that does not end in
the handler's answer (a guard failed), the rows after the call are the rows before it: no create
and no update reached the persistence layer. -/
theorem C15_failed_call_changes_nothing (env : Env) (s : Store) (call : Call)
    (h : (call.handle env s).succeeded = false) : (call.handle env s).store = s :=
  failed_call_keeps env s call h

/-! ## Malformed bodies (C18) and the record of `seatReservation` (C17) -/

/-- The route `create` on a body whose `data` is absent, or is anything but `null` and has no
truthy `table_name`: the first presence guard answers. -/
theorem create_lacks_name (env : Env) (s : Store) (req : Request) (d : JsVal)
    (hd : getProp req.body "data" = some d) (hnull : d ≠ .null)
    (hlack : ∀ fs, d = .obj fs → (field fs "table_name").truthy = false) :
    handle (exports.create env) s req =
      { reply := Reply.error 400 "Table must include a table_name", store := s } := by
  have m : "Table must include a " ++ "table_name" = "Table must include a table_name" := by
    decide
  simp only [handle, exports.create]
  by_cases hobj : ∃ fs, d = .obj fs
  · obtain ⟨fs, rfl⟩ := hobj
    rw [runChain, bodyDataHas_obj _ _ fs hd, if_neg (by simp [hlack fs rfl]), m]
  · rw [runChain, bodyDataHas_other _ (by decide) _ d hd hnull (fun fs h => hobj ⟨fs, h⟩), m]

/-- The route `seatReservation` on a body whose `data` is absent, or is anything but `null` and
has no truthy `reservation_id`: the presence guard answers. -/
theorem seat_lacks_id (env : Env) (s : Store) (req : Request) (d : JsVal)
    (hd : getProp req.body "data" = some d) (hnull : d ≠ .null)
    (hlack : ∀ fs, d = .obj fs → (field fs "reservation_id").truthy = false) :
    handle (exports.seatReservation env) s req =
      { reply := Reply.error 400 "Table must include a reservation_id", store := s } := by
  refine seat_no_id env s req d hd hnull ?_
  unfold bodyReservationId
  rw [hd]
  cases d with
  | obj fs => simpa [orEmptyObject, getProp_obj] using hlack fs rfl
  | null => exact absurd rfl hnull
  | undefined => rfl
  | bool b => rfl
  | num q => rfl
  | str x => simp [orEmptyObject, getProp, JsVal.truthy]
  | arr xs => simp [orEmptyObject, getProp, JsVal.truthy]

/-- The route `create` never throws on a body whose `data` is absent or anything but `null`. -/
theorem create_not_thrown (env : Env) (s : Store) (req : Request) (d : JsVal)
    (hd : getProp req.body "data" = some d) (hnull : d ≠ .null) :
    (handle (exports.create env) s req).reply ≠ Reply.thrown := by
  by_cases hobj : ∃ fs, d = .obj fs
  · obtain ⟨fs, rfl⟩ := hobj
    rw [create_eval env s req fs hd]
    split_ifs <;> simp
  · rw [create_lacks_name env s req d hd hnull (fun fs h => absurd ⟨fs, h⟩ hobj)]
    simp

/-- The route `seatReservation` never throws on a body whose `data` is absent or anything but
`null`. -/
theorem seat_not_thrown (env : Env) (s : Store) (req : Request) (d : JsVal)
    (hd : getProp req.body "data" = some d) (hnull : d ≠ .null) :
    (handle (exports.seatReservation env) s req).reply ≠ Reply.thrown := by
  by_cases hid : (bodyReservationId req).truthy = false
  · rw [seat_no_id env s req d hd hnull hid]
    simp
  · have hid1 : (bodyReservationId req).truthy = true := by simpa using hid
    obtain ⟨fs, hfs, hrid⟩ := bodyReservationId_truthy req hid1
    rw [hrid] at hid1
    cases hr : reservationRow s (field fs "reservation_id") with
    | none =>
      rw [seat_no_reservation env s req fs hfs hid1 hr]
      simp
    | some r =>
      cases ht : tableRow s req.params.table_id with
      | none =>
        rw [seat_no_table env s req fs r hfs hid1 hr ht]
        simp
      | some t =>
        rw [seat_rows env s req fs t r hfs hid1 hr ht, seat_guards_obj env _ t r rfl rfl]
        split_ifs
        · simp
        · simp
        · simp
        · rw [seatReservation_obj _ fs t r hfs rfl rfl]
          simp

/-- C18, the code at the failing input: with the body `{ data: null }` neither chain answers 400:
in both `create` and `seatReservation` the first guard throws a `TypeError` on reading a property
of `null` (the default in `const { data = {} }` replaces `undefined` only). -/
theorem C18_null_data_throws :
    (handle (exports.create exampleEnv) emptyStore
      (request .undefined (.obj [("data", .null)]))).reply = Reply.thrown ∧
    (handle (exports.seatReservation exampleEnv) emptyStore
      (request (.num 1) (.obj [("data", .null)]))).reply = Reply.thrown :=
  ⟨rfl, rfl⟩

/-- The record `seatReservation` hands to `service.update` names the table of the path, and
carries every other property of the request's `data` as it came. -/
theorem seat_record (env : Env) (s : Store) (req : Request)
    (h : (handle (exports.seatReservation env) s req).succeeded = true) :
    ∃ fs t, getProp req.body "data" = some (.obj fs) ∧
      tableRow s req.params.table_id = some t ∧
      ((handle (exports.seatReservation env) s req).store.tables
        = (service.update s (seatedTable (.obj fs) (field t "table_id"))).1.tables) ∧
      field? (seatedTable (.obj fs) (field t "table_id")) "table_id"
        = some req.params.table_id ∧
      ∀ name, name ≠ "table_id" →
        field? (seatedTable (.obj fs) (field t "table_id")) name = field? fs name := by
  obtain ⟨fs, t, r, hfs, _, _, _, ht, hs⟩ := seat_succeeded env s req h
  refine ⟨fs, t, hfs, ht, ?_, ?_, ?_⟩
  · rw [hs]
    rfl
  · rw [seatedTable, field?_setField_same,
      field_of_field? _ _ _ (field?_of_tableRow _ _ _ ht)]
  · intro name hname
    rw [seatedTable, field?_setField_other _ _ _ _ (Ne.symm hname)]
    rfl

/-- C17, the code at the failing input: with the body `{ data: { reservation_id: 7, capacity: 99,
table_name: "Window", table_id: 5 } }` every guard passes, the record handed to `service.update`
is the whole `data` with only `table_id` replaced by that of the path, and the table ends with
capacity 99 and the name `"Window"`. -/
theorem C17_seat_writes_extra_fields :
    (handle (exports.seatReservation exampleEnv) sampleStore crowdedSeatRequest).succeeded
      = true ∧
    seatedTable (.obj [("reservation_id", .num 7), ("capacity", .num 99),
        ("table_name", .str "Window"), ("table_id", .num 5)]) (.num 1)
      = [("reservation_id", .num 7), ("capacity", .num 99), ("table_name", .str "Window"),
          ("table_id", .num 1)] ∧
    (handle (exports.seatReservation exampleEnv) sampleStore crowdedSeatRequest).store.tables
      = [[("table_id", .num 1), ("table_name", .str "Window"), ("capacity", .num 99),
          ("reservation_id", .num 7)]] :=
  ⟨rfl, rfl, rfl⟩

/-! ## The round trip (C16) -/

/-- The route `create` on a valid input: the record is stored. -/
theorem create_valid (env : Env) (s : Store) (req : Request) (fs : Obj) (name : String) (c : ℚ)
    (hd : getProp req.body "data" = some (.obj fs))
    (hname : field fs "table_name" = .str name) (hlen : 2 ≤ utf16Length name)
    (hcap : field fs "capacity" = .num c) (hc : 1 ≤ c) (hint : c.den = 1) :
    handle (exports.create env) s req =
      { reply := Reply.json 201 [.obj [("data", (service.create s
          (newTable (.str name) (.num c) (field fs "reservation_id"))).2)]],
        store := (service.create s
          (newTable (.str name) (.num c) (field fs "reservation_id"))).1 } := by
  have ht := truthy_str_of_length name (by omega)
  have hlt : ¬ ((utf16Length name : ℕ) : ℚ) < 2 := by
    rw [not_lt]
    exact_mod_cast hlen
  have hpos : 0 < c := lt_of_lt_of_le one_pos hc
  have hq : ¬ c = 0 := ne_of_gt hpos
  have hq2 : ¬ c ≤ 0 := not_le.2 hpos
  rw [create_eval env s req fs hd, hname, hcap, length_str, jsLt_num, jsLe_num, isInteger_num]
  simp [ht, truthy_num, hq, hlt, hq2, hint]

/-- The table `service.create` stores is found under the identifier it was given, provided no
earlier table carries that identifier. -/
theorem tableRow_create (s : Store) (record : Obj)
    (hfresh : tableRow s (.num s.nextTableId) = none) :
    tableRow (service.create s record).1 (.num s.nextTableId)
      = some (("table_id", .num s.nextTableId) :: record) := by
  unfold tableRow at hfresh ⊢
  simp only [service.create, List.find?_append, hfresh, Option.or, List.find?_cons]
  have : hasId "table_id" (.num s.nextTableId) (("table_id", .num s.nextTableId) :: record)
      = true := by
    rw [hasId_iff]
    simp [field?]
  simp [this]

/-- The route `finishReservation` on an occupied table whose reservation exists: both rows are
rewritten, the table with `reservation_id: null` and the reservation with `status: "finished"`. -/
theorem finish_occupied (env : Env) (s : Store) (req : Request) (t r : Obj)
    (ht : tableRow s req.params.table_id = some t)
    (hocc : (field t "reservation_id").isNull = false)
    (hr : reservationRow s (field t "reservation_id") = some r) :
    (handle (exports.finishReservation env) s req).succeeded = true ∧
    tableRow (handle (exports.finishReservation env) s req).store req.params.table_id
      = some (mergeRow t (setField t "reservation_id" .null)) ∧
    reservationRow (handle (exports.finishReservation env) s req).store
      (field t "reservation_id") = some (mergeRow r (setField r "status" (.str "finished"))) := by
  have hread : reservationsService.read env s (field t "reservation_id") = .obj r := by
    rw [read_eq_reservationRow, hr]
  have htid : field? t "table_id" = some req.params.table_id := field?_of_tableRow _ _ _ ht
  have hrid : field? r "reservation_id" = some (field t "reservation_id") :=
    field?_of_reservationRow _ _ _ hr
  have hrecT : field? (setField t "reservation_id" .null) "table_id"
      = some req.params.table_id := by
    rw [field?_setField_other _ _ _ _ (by decide), htid]
  have hrecR : field? (setField r "status" (.str "finished")) "reservation_id"
      = some (field t "reservation_id") := by
    rw [field?_setField_other _ _ _ _ (by decide), hrid]
  rw [finish_table_found env s req t ht, hread, if_neg (by simp [JsVal.isNull]),
    if_neg (by simp [hocc])]
  simp only [runChain, Tables.finishReservation, spread]
  refine ⟨rfl, ?_, ?_⟩
  · show tableRow (service.update s _).1 _ = _
    rw [tableRow_update s _ _ _ hrecT, ht]
    simp only [Option.map_some', (hasId_iff _ _ _).2 htid, if_true]
  · show reservationRow (reservationsService.update _ _).1 _ = _
    rw [reservationRow_update _ _ _ _ hrecR]
    show Option.map _ (reservationRow s _) = _
    rw [hr]
    simp only [Option.map_some', (hasId_iff _ _ _).2 hrid, if_true]

theorem bodyReservationId_obj (req : Request) (fs : Obj)
    (hd : getProp req.body "data" = some (.obj fs)) :
    bodyReservationId req = field fs "reservation_id" := by
  simp [bodyReservationId, hd, orEmptyObject, getProp_obj]

/-- The route `seatReservation` when every guard passes: both rows are rewritten, the table with
the record built from the body and the reservation with `status: "seated"`. -/
theorem seat_fits (env : Env) (s : Store) (req : Request) (fs t r : Obj)
    (hd : getProp req.body "data" = some (.obj fs))
    (hid : (field fs "reservation_id").truthy = true)
    (hr : reservationRow s (field fs "reservation_id") = some r)
    (ht : tableRow s req.params.table_id = some t)
    (hns : isSeated (field r "status") = false)
    (hfree : (field t "reservation_id").isNull = true)
    (hfit : jsGt env (field r "people") (field t "capacity") = false) :
    (handle (exports.seatReservation env) s req).succeeded = true ∧
    tableRow (handle (exports.seatReservation env) s req).store req.params.table_id
      = some (mergeRow t (seatedTable (.obj fs) (field t "table_id"))) ∧
    reservationRow (handle (exports.seatReservation env) s req).store
      (field fs "reservation_id") = some (mergeRow r (setField r "status" (.str "seated"))) := by
  have htid : field? t "table_id" = some req.params.table_id := field?_of_tableRow _ _ _ ht
  have hridr : field? r "reservation_id" = some (field fs "reservation_id") :=
    field?_of_reservationRow _ _ _ hr
  have hrecT : field? (seatedTable (.obj fs) (field t "table_id")) "table_id"
      = some req.params.table_id := by
    rw [seatedTable, field?_setField_same, field_of_field? _ _ _ htid]
  have hrecR : field? (setField r "status" (.str "seated")) "reservation_id"
      = some (field fs "reservation_id") := by
    rw [field?_setField_other _ _ _ _ (by decide), hridr]
  rw [seat_rows env s req fs t r hd hid hr ht, seat_guards_obj env _ t r rfl rfl,
    if_neg (by simp [hns]), if_neg (by simp [hfree]), if_neg (by simp [hfit]),
    seatReservation_obj _ fs t r hd rfl rfl]
  refine ⟨rfl, ?_, ?_⟩
  · show tableRow (service.update s _).1 _ = _
    rw [tableRow_update s _ _ _ hrecT, ht]
    simp only [Option.map_some', (hasId_iff _ _ _).2 htid, if_true]
  · show reservationRow (reservationsService.update _ _).1 _ = _
    rw [reservationRow_update _ _ _ _ hrecR]
    show Option.map _ (reservationRow s _) = _
    rw [hr]
    simp only [Option.map_some', (hasId_iff _ _ _).2 hridr, if_true]

theorem field?_finished_row (row : Obj) (name other : String) (v : JsVal) (h : name ≠ other) :
    field? (mergeRow row (setField row name v)) other = field? row other := by
  rw [field?_mergeRow, field?_setField_other _ _ _ _ h]
  cases field? row other <;> rfl

theorem field_mergeRow_of_not_mem (row record : Obj) (name : String)
    (h : field? record name = none) : field (mergeRow row record) name = field row name := by
  simp [field, field?_mergeRow, h]

/-- C16 (as amended). For every table created with a valid name, capacity `c` and no
`reservation_id`, under an identifier no earlier table carries, and every existing booked
reservation with `people <= c`: a `seatReservation` whose body names the reservation and carries
no `table_name` or `capacity` succeeds and gives the table that `reservation_id` and the
reservation the status `"seated"`; a following `finishReservation` on the table succeeds and gives
the table `reservation_id = null` and the reservation the status `"finished"`, and the table has
the `table_name` and `capacity` it was created with. -/
theorem C16_round_trip (env : Env) (s : Store) (reqC reqS reqF : Request)
    (fs fs2 r : Obj) (name : String) (c p : ℚ)
    (hd : getProp reqC.body "data" = some (.obj fs))
    (hname : field fs "table_name" = .str name) (hlen : 2 ≤ utf16Length name)
    (hcap : field fs "capacity" = .num c) (hc : 1 ≤ c) (hint : c.den = 1)
    (hplain : (field fs "reservation_id").truthy = false)
    (hfresh : tableRow s (.num s.nextTableId) = none)
    (hseat : reqS.params.table_id = .num s.nextTableId)
    (hfinish : reqF.params.table_id = .num s.nextTableId)
    (hd2 : getProp reqS.body "data" = some (.obj fs2))
    (hid : (field fs2 "reservation_id").truthy = true)
    (hnoName : field? fs2 "table_name" = none) (hnoCap : field? fs2 "capacity" = none)
    (hr : reservationRow s (field fs2 "reservation_id") = some r)
    (hbooked : field r "status" = .str "booked")
    (hpeople : field r "people" = .num p) (hfit : p ≤ c) :
    (Call.handle env s (.create reqC)).succeeded = true ∧
    (Call.handle env (runCalls env s [.create reqC]) (.seatReservation reqS)).succeeded = true ∧
    (∃ t2 r2,
      tableRow (runCalls env s [.create reqC, .seatReservation reqS]) (.num s.nextTableId)
        = some t2 ∧
      field t2 "reservation_id" = field fs2 "reservation_id" ∧
      reservationRow (runCalls env s [.create reqC, .seatReservation reqS])
        (field fs2 "reservation_id") = some r2 ∧
      field r2 "status" = .str "seated") ∧
    (Call.handle env (runCalls env s [.create reqC, .seatReservation reqS])
      (.finishReservation reqF)).succeeded = true ∧
    (∃ t3 r3,
      tableRow (runCalls env s [.create reqC, .seatReservation reqS, .finishReservation reqF])
        (.num s.nextTableId) = some t3 ∧
      field t3 "reservation_id" = .null ∧
      field t3 "table_name" = .str name ∧
      field t3 "capacity" = .num c ∧
      reservationRow (runCalls env s [.create reqC, .seatReservation reqS, .finishReservation reqF])
        (field fs2 "reservation_id") = some r3 ∧
      field r3 "status" = .str "finished") := by
  -- create
  have hcreate := create_valid env s reqC fs name c hd hname hlen hcap hc hint
  have hrec : newTable (.str name) (.num c) (field fs "reservation_id")
      = [("table_name", .str name), ("capacity", .num c), ("reservation_id", .null)] := by
    simp [newTable, hplain]
  rw [hrec] at hcreate
  generalize hs1 : runCalls env s [.create reqC] = s1
  have hs1eq : s1 = (service.create s
      [("table_name", .str name), ("capacity", .num c), ("reservation_id", .null)]).1 := by
    rw [← hs1]
    simp only [runCalls, Call.run, Call.handle, hcreate]
  have ht1 : tableRow s1 reqS.params.table_id
      = some [("table_id", .num s.nextTableId), ("table_name", .str name),
          ("capacity", .num c), ("reservation_id", .null)] := by
    rw [hs1eq, hseat]
    exact tableRow_create s _ hfresh
  have hr1 : reservationRow s1 (field fs2 "reservation_id") = some r := by
    rw [hs1eq]
    exact hr
  -- seat
  have hns : isSeated (field r "status") = false := by
    rw [hbooked]
    decide
  have hgt : jsGt env (field r "people")
      (field [("table_id", JsVal.num s.nextTableId), ("table_name", .str name),
          ("capacity", .num c), ("reservation_id", .null)] "capacity") = false := by
    rw [hpeople]
    show jsGt env (.num p) (.num c) = false
    rw [jsGt_num]
    simpa using hfit
  obtain ⟨hok2, ht2, hr2⟩ := seat_fits env s1 reqS fs2 _ r hd2 hid hr1 ht1 hns rfl hgt
  generalize hs2 : runCalls env s [.create reqC, .seatReservation reqS] = s2
  have hs2eq : s2 = (handle (exports.seatReservation env) s1 reqS).store := by
    rw [← hs2, ← hs1]
    rfl
  rw [← hs2eq, hseat] at ht2
  rw [← hs2eq] at hr2
  -- finish
  have hres2 : field (mergeRow [("table_id", JsVal.num s.nextTableId), ("table_name", .str name),
      ("capacity", .num c), ("reservation_id", .null)]
      (seatedTable (.obj fs2) (field [("table_id", JsVal.num s.nextTableId),
        ("table_name", .str name), ("capacity", .num c), ("reservation_id", .null)] "table_id")))
      "reservation_id" = field fs2 "reservation_id" := by
    apply field_mergeRow_of_mem
    rw [seatedTable, field?_setField_other _ _ _ _ (by decide)]
    exact field?_of_truthy fs2 _ hid
  have hocc := isNull_of_truthy _ hid
  rw [← hres2] at hocc hr2
  obtain ⟨hok3, ht3, hr3⟩ := finish_occupied env s2 reqF _ _ (hfinish ▸ ht2) hocc hr2
  generalize hs3 : runCalls env s [.create reqC, .seatReservation reqS, .finishReservation reqF]
    = s3
  have hs3eq : s3 = (handle (exports.finishReservation env) s2 reqF).store := by
    rw [← hs3, ← hs2]
    rfl
  rw [← hs3eq, hfinish] at ht3
  rw [← hs3eq, hres2] at hr3
  rw [hres2] at hr2
  have hname2 : field? (mergeRow [("table_id", JsVal.num s.nextTableId),
      ("table_name", .str name), ("capacity", .num c), ("reservation_id", .null)]
      (seatedTable (.obj fs2) (field [("table_id", JsVal.num s.nextTableId),
        ("table_name", .str name), ("capacity", .num c), ("reservation_id", .null)] "table_id")))
      "table_name" = some (.str name) := by
    rw [field?_mergeRow, seatedTable, field?_setField_other _ _ _ _ (by decide)]
    show (match field? fs2 "table_name" with
      | some v => some v
      | none => _) = _
    rw [hnoName]
    rfl
  have hcap2 : field? (mergeRow [("table_id", JsVal.num s.nextTableId),
      ("table_name", .str name), ("capacity", .num c), ("reservation_id", .null)]
      (seatedTable (.obj fs2) (field [("table_id", JsVal.num s.nextTableId),
        ("table_name", .str name), ("capacity", .num c), ("reservation_id", .null)] "table_id")))
      "capacity" = some (.num c) := by
    rw [field?_mergeRow, seatedTable, field?_setField_other _ _ _ _ (by decide)]
    show (match field? fs2 "capacity" with
      | some v => some v
      | none => _) = _
    rw [hnoCap]
    rfl
  refine ⟨?_, ?_, ⟨_, _, ht2, hres2, hr2, ?_⟩, ?_, ⟨_, _, ht3, ?_, ?_, ?_, hr3, ?_⟩⟩
  · show (handle (exports.create env) s reqC).succeeded = true
    rw [hcreate]
    rfl
  · exact hok2
  · exact field_mergeRow_of_mem _ _ _ _ (field?_setField_same _ _ _)
  · exact hok3
  · exact field_mergeRow_of_mem _ _ _ _ (field?_setField_same _ _ _)
  · exact field_of_field? _ _ _ ((field?_finished_row _ _ _ _ (by decide)).trans hname2)
  · exact field_of_field? _ _ _ ((field?_finished_row _ _ _ _ (by decide)).trans hcap2)
  · exact field_mergeRow_of_mem _ _ _ _ (field?_setField_same _ _ _)

/-! ## The consistency invariant (C14) -/

theorem hasId_false_iff (key : String) (id : JsVal) (row : Obj) :
    hasId key id row = false ↔ field? row key ≠ some id := by
  rw [Ne, ← hasId_iff]
  simp

theorem mem_updateRows (key : String) (rows : List Obj) (record : Obj) (id : JsVal)
    (hrec : field? record key = some id) (x2 : Obj) :
    x2 ∈ updateRows key rows record ↔
      ∃ x ∈ rows, x2 = if hasId key id x then mergeRow x record else x := by
  unfold updateRows
  rw [hrec]
  simp only [List.mem_map]
  constructor
  · rintro ⟨x, hx, rfl⟩
    exact ⟨x, hx, rfl⟩
  · rintro ⟨x, hx, rfl⟩
    exact ⟨x, hx, rfl⟩

theorem map_eq_self {α : Type} (l : List α) (f : α → α) (h : ∀ x ∈ l, f x = x) :
    l.map f = l := by
  induction l with
  | nil => rfl
  | cons a rest ih =>
    rw [List.map_cons, h a (List.mem_cons_self _ _),
      ih (fun x hx => h x (List.mem_cons_of_mem _ hx))]

/-- An update of rows with distinct identifiers rewrites the one row the record names and nothing
else. -/
theorem updateRows_split (key : String) (rows : List Obj) (record : Obj) (id : JsVal) (t : Obj)
    (hrec : field? record key = some id)
    (hfind : rows.find? (hasId key id) = some t)
    (hdistinct : (rows.map (fun row => field? row key)).Nodup) :
    ∃ l1 l2, rows = l1 ++ t :: l2 ∧
      updateRows key rows record = l1 ++ mergeRow t record :: l2 ∧
      (∀ x ∈ l1, hasId key id x = false) ∧ (∀ x ∈ l2, hasId key id x = false) := by
  obtain ⟨ht, l1, l2, hrows, hl1⟩ := List.find?_eq_some.1 hfind
  have hl1f : ∀ x ∈ l1, hasId key id x = false := by
    intro x hx
    simpa using hl1 x hx
  have htid : field? t key = some id := (hasId_iff _ _ _).1 ht
  have hl2f : ∀ x ∈ l2, hasId key id x = false := by
    intro x hx
    rw [hasId_false_iff]
    intro hxid
    rw [hrows, List.map_append, List.map_cons] at hdistinct
    have h2 := (List.nodup_append.1 hdistinct).2.1
    rw [List.nodup_cons] at h2
    apply h2.1
    rw [htid, ← hxid]
    exact List.mem_map_of_mem _ hx
  refine ⟨l1, l2, hrows, ?_, hl1f, hl2f⟩
  unfold updateRows
  rw [hrec, hrows]
  simp only [List.map_append, List.map_cons, if_pos ht]
  congr 1
  · exact map_eq_self l1 _ (fun x hx => by simp [hl1f x hx])
  · congr 1
    exact map_eq_self l2 _ (fun x hx => by simp [hl2f x hx])

theorem hasId_null_of_isNull (row : Obj) (v x : JsVal) (hv : field? row "reservation_id" = some v)
    (hnull : v.isNull = true) (hx : x.isNull = false) :
    hasId "reservation_id" x row = false := by
  rw [hasId_false_iff, hv]
  intro h
  rw [Option.some.inj h, hx] at hnull
  exact Bool.noConfusion hnull

theorem countP_split (p : Obj → Bool) (l1 l2 : List Obj) (t : Obj) :
    (l1 ++ t :: l2).countP p = l1.countP p + l2.countP p + (if p t = true then 1 else 0) := by
  rw [List.countP_append, List.countP_cons]
  omega

/-- The invariant survives the two updates of a successful `seatReservation`. -/
theorem Invariant.seat (s : Store) (t r recT recR : Obj) (tid rid : JsVal)
    (hinv : Invariant s)
    (ht : tableRow s tid = some t) (hr : reservationRow s rid = some r)
    (hrecT : field? recT "table_id" = some tid)
    (hrecT2 : field? recT "reservation_id" = some rid)
    (hrid : rid.isNull = false)
    (hrecR : field? recR "reservation_id" = some rid)
    (hrecR2 : field? recR "status" = some (.str "seated"))
    (hns : isSeated (field r "status") = false)
    (hfree : (field t "reservation_id").isNull = true) :
    Invariant { tables := updateRows "table_id" s.tables recT,
                reservations := updateRows "reservation_id" s.reservations recR,
                nextTableId := s.nextTableId } := by
  obtain ⟨l1, l2, hrows, hupd, hl1, hl2⟩ :=
    updateRows_split "table_id" s.tables recT tid t hrecT ht hinv.distinct
  have htmem : t ∈ s.tables := List.mem_of_find?_eq_some ht
  have hrmem : r ∈ s.reservations := List.mem_of_find?_eq_some hr
  have hrhas : hasId "reservation_id" rid r = true := List.find?_some hr
  obtain ⟨v, hv, _⟩ := hinv.refs t htmem
  have hvnull : v.isNull = true := by
    rw [field_of_field? _ _ _ hv] at hfree
    exact hfree
  have ht2id : field? (mergeRow t recT) "table_id" = field? t "table_id" := by
    rw [field?_mergeRow, hrecT, field?_of_tableRow _ _ _ ht]
  have ht2res : field? (mergeRow t recT) "reservation_id" = some rid := by
    rw [field?_mergeRow, hrecT2]
  have hidmap : (l1 ++ mergeRow t recT :: l2).map (fun row => field? row "table_id")
      = s.tables.map (fun row => field? row "table_id") := by
    rw [hrows]
    simp only [List.map_append, List.map_cons, ht2id]
  -- no other table refers to the reservation being seated
  have hnone : ∀ y ∈ s.tables, hasId "reservation_id" rid y = true → False := by
    intro y hy hhas
    obtain ⟨w, hw, hcase⟩ := hinv.refs y hy
    have hwr : w = rid := by
      rw [hasId_iff, hw] at hhas
      exact Option.some.inj hhas
    subst hwr
    rcases hcase with hnull | ⟨_, hall⟩
    · rw [hrid] at hnull
      exact Bool.noConfusion hnull
    · rw [hall r hrmem hrhas] at hns
      exact Bool.noConfusion hns
  have hmemR : ∀ x2, x2 ∈ updateRows "reservation_id" s.reservations recR ↔
      ∃ x ∈ s.reservations,
        x2 = if hasId "reservation_id" rid x then mergeRow x recR else x :=
    mem_updateRows "reservation_id" s.reservations recR rid hrecR
  have hseatedRow : ∀ x, isSeated (field (mergeRow x recR) "status") = true := by
    intro x
    rw [field_mergeRow_of_mem _ _ _ _ hrecR2]
    decide
  have hmemT : ∀ x, x ∈ l1 ++ mergeRow t recT :: l2 ↔
      (x ∈ l1 ∨ x ∈ l2) ∨ x = mergeRow t recT := by
    intro x
    simp only [List.mem_append, List.mem_cons]
    tauto
  have hsub : ∀ x, (x ∈ l1 ∨ x ∈ l2) → x ∈ s.tables := by
    intro x hx
    rw [hrows]
    simp only [List.mem_append, List.mem_cons]
    tauto
  refine ⟨?_, ?_, ?_, ?_, ?_⟩
  · -- ids
    intro row hrow
    simp only [hupd] at hrow
    have hm : field? row "table_id" ∈ s.tables.map (fun row => field? row "table_id") := by
      rw [← hidmap]
      exact List.mem_map_of_mem _ hrow
    obtain ⟨row0, hrow0, he⟩ := List.mem_map.1 hm
    obtain ⟨k, hk, hk2⟩ := hinv.ids row0 hrow0
    exact ⟨k, hk, by rw [← he, hk2]⟩
  · -- distinct
    simp only [hupd, hidmap]
    exact hinv.distinct
  · -- refs
    intro x hx
    simp only [hupd] at hx
    rcases (hmemT x).1 hx with hx | rfl
    · obtain ⟨w, hw, hcase⟩ := hinv.refs x (hsub x hx)
      refine ⟨w, hw, ?_⟩
      rcases hcase with hnull | ⟨⟨r0, hr0, hr0has⟩, hall⟩
      · exact Or.inl hnull
      · refine Or.inr ⟨⟨_, (hmemR _).2 ⟨r0, hr0, rfl⟩, ?_⟩, ?_⟩
        · rw [hasId_update _ _ _ _ _ hrecR]
          exact hr0has
        · intro r2 hr2 hr2has
          obtain ⟨r1, hr1, rfl⟩ := (hmemR r2).1 hr2
          rw [hasId_update _ _ _ _ _ hrecR] at hr2has
          by_cases hc : hasId "reservation_id" rid r1 = true
          · rw [if_pos hc]
            exact hseatedRow r1
          · rw [if_neg hc]
            exact hall r1 hr1 hr2has
    · refine ⟨rid, ht2res, Or.inr ⟨⟨_, (hmemR _).2 ⟨r, hrmem, rfl⟩, ?_⟩, ?_⟩⟩
      · rw [hasId_update _ _ _ _ _ hrecR]
        exact hrhas
      · intro r2 hr2 hr2has
        obtain ⟨r1, hr1, rfl⟩ := (hmemR r2).1 hr2
        rw [hasId_update _ _ _ _ _ hrecR] at hr2has
        rw [if_pos hr2has]
        exact hseatedRow r1
  · -- at most one
    intro x hx
    have hold := hinv.atMostOne x hx
    unfold referencing at hold ⊢
    simp only [hupd]
    rw [hrows, countP_split, hasId_null_of_isNull t v x hv hvnull hx] at hold
    rw [countP_split]
    by_cases hxr : x = rid
    · subst hxr
      have h1 : l1.countP (hasId "reservation_id" x) = 0 := by
        rw [List.countP_eq_zero]
        intro y hy hhas
        exact hnone y (hsub y (Or.inl hy)) hhas
      have h2 : l2.countP (hasId "reservation_id" x) = 0 := by
        rw [List.countP_eq_zero]
        intro y hy hhas
        exact hnone y (hsub y (Or.inr hy)) hhas
      rw [h1, h2]
      split <;> omega
    · have hno : hasId "reservation_id" x (mergeRow t recT) = false := by
        rw [hasId_false_iff, ht2res]
        intro he
        exact hxr (Option.some.inj he).symm
      rw [hno]
      simpa using hold
  · -- seated
    intro r2 hr2 hseat
    obtain ⟨r1, hr1, rfl⟩ := (hmemR r2).1 hr2
    by_cases hc : hasId "reservation_id" rid r1 = true
    · rw [if_pos hc]
      refine ⟨rid, ?_, hrid, mergeRow t recT, ?_, ?_⟩
      · rw [field?_mergeRow, hrecR]
      · simp only [hupd]
        exact (hmemT _).2 (Or.inr rfl)
      · exact (hasId_iff _ _ _).2 ht2res
    · rw [if_neg hc] at hseat ⊢
      obtain ⟨rid1, hrid1, hnn, t1, ht1, ht1has⟩ := hinv.seated r1 hr1 hseat
      refine ⟨rid1, hrid1, hnn, t1, ?_, ht1has⟩
      simp only [hupd]
      rw [hrows] at ht1
      simp only [List.mem_append, List.mem_cons] at ht1
      rcases ht1 with h | rfl | h
      · exact (hmemT _).2 (Or.inl (Or.inl h))
      · rw [hasId_null_of_isNull _ v rid1 hv hvnull hnn] at ht1has
        exact Bool.noConfusion ht1has
      · exact (hmemT _).2 (Or.inl (Or.inr h))

/-- The invariant survives the two updates of a successful `finishReservation`. -/
theorem Invariant.finish (s : Store) (t recR : Obj) (tid rid : JsVal)
    (hinv : Invariant s)
    (ht : tableRow s tid = some t) (hres : field? t "reservation_id" = some rid)
    (hrid : rid.isNull = false)
    (hrecR : field? recR "reservation_id" = some rid)
    (hrecR2 : field? recR "status" = some (.str "finished")) :
    Invariant { tables := updateRows "table_id" s.tables (setField t "reservation_id" .null),
                reservations := updateRows "reservation_id" s.reservations recR,
                nextTableId := s.nextTableId } := by
  have hrecT : field? (setField t "reservation_id" .null) "table_id" = some tid := by
    rw [field?_setField_other _ _ _ _ (by decide), field?_of_tableRow _ _ _ ht]
  obtain ⟨l1, l2, hrows, hupd, hl1, hl2⟩ :=
    updateRows_split "table_id" s.tables _ tid t hrecT ht hinv.distinct
  have ht2id : field? (mergeRow t (setField t "reservation_id" .null)) "table_id"
      = field? t "table_id" := by
    rw [field?_mergeRow, hrecT, field?_of_tableRow _ _ _ ht]
  have ht2res : field? (mergeRow t (setField t "reservation_id" .null)) "reservation_id"
      = some .null := by
    rw [field?_mergeRow, field?_setField_same]
  have hidmap : (l1 ++ mergeRow t (setField t "reservation_id" .null) :: l2).map
        (fun row => field? row "table_id")
      = s.tables.map (fun row => field? row "table_id") := by
    rw [hrows]
    simp only [List.map_append, List.map_cons, ht2id]
  have hthas : hasId "reservation_id" rid t = true := (hasId_iff _ _ _).2 hres
  -- no other table refers to the reservation being finished
  have hcount := hinv.atMostOne rid hrid
  unfold referencing at hcount
  rw [hrows, countP_split, if_pos hthas] at hcount
  have hnone : ∀ y, (y ∈ l1 ∨ y ∈ l2) →
      hasId "reservation_id" rid y = true → False := by
    intro y hy hhas
    have h1 : l1.countP (hasId "reservation_id" rid) = 0 := by omega
    have h2 : l2.countP (hasId "reservation_id" rid) = 0 := by omega
    rw [List.countP_eq_zero] at h1 h2
    rcases hy with hy | hy
    · exact h1 y hy hhas
    · exact h2 y hy hhas
  have hmemR : ∀ x2, x2 ∈ updateRows "reservation_id" s.reservations recR ↔
      ∃ x ∈ s.reservations,
        x2 = if hasId "reservation_id" rid x then mergeRow x recR else x :=
    mem_updateRows "reservation_id" s.reservations recR rid hrecR
  have hfinishedRow : ∀ x, isSeated (field (mergeRow x recR) "status") = false := by
    intro x
    rw [field_mergeRow_of_mem _ _ _ _ hrecR2]
    decide
  have hmemT : ∀ x, x ∈ l1 ++ mergeRow t (setField t "reservation_id" .null) :: l2 ↔
      (x ∈ l1 ∨ x ∈ l2) ∨ x = mergeRow t (setField t "reservation_id" .null) := by
    intro x
    simp only [List.mem_append, List.mem_cons]
    tauto
  have hsub : ∀ x, (x ∈ l1 ∨ x ∈ l2) → x ∈ s.tables := by
    intro x hx
    rw [hrows]
    simp only [List.mem_append, List.mem_cons]
    tauto
  refine ⟨?_, ?_, ?_, ?_, ?_⟩
  · intro row hrow
    simp only [hupd] at hrow
    have hm : field? row "table_id" ∈ s.tables.map (fun row => field? row "table_id") := by
      rw [← hidmap]
      exact List.mem_map_of_mem _ hrow
    obtain ⟨row0, hrow0, he⟩ := List.mem_map.1 hm
    obtain ⟨k, hk, hk2⟩ := hinv.ids row0 hrow0
    exact ⟨k, hk, by rw [← he, hk2]⟩
  · simp only [hupd, hidmap]
    exact hinv.distinct
  · intro x hx
    simp only [hupd] at hx
    rcases (hmemT x).1 hx with hx | rfl
    · obtain ⟨w, hw, hcase⟩ := hinv.refs x (hsub x hx)
      refine ⟨w, hw, ?_⟩
      rcases hcase with hnull | ⟨⟨r0, hr0, hr0has⟩, hall⟩
      · exact Or.inl hnull
      · have hwr : w ≠ rid := by
          intro he
          subst he
          exact hnone x hx ((hasId_iff _ _ _).2 hw)
        refine Or.inr ⟨⟨_, (hmemR _).2 ⟨r0, hr0, rfl⟩, ?_⟩, ?_⟩
        · rw [hasId_update _ _ _ _ _ hrecR]
          exact hr0has
        · intro r2 hr2 hr2has
          obtain ⟨r1, hr1, rfl⟩ := (hmemR r2).1 hr2
          rw [hasId_update _ _ _ _ _ hrecR] at hr2has
          have hc : ¬ hasId "reservation_id" rid r1 = true := by
            intro hc
            rw [hasId_iff] at hc hr2has
            rw [hc] at hr2has
            exact hwr (Option.some.inj hr2has).symm
          rw [if_neg hc]
          exact hall r1 hr1 hr2has
    · exact ⟨.null, ht2res, Or.inl rfl⟩
  · intro x hx
    have hold := hinv.atMostOne x hx
    unfold referencing at hold ⊢
    simp only [hupd]
    rw [hrows, countP_split] at hold
    rw [countP_split, hasId_null_of_isNull _ .null x ht2res rfl hx]
    simp only [Bool.false_eq_true, if_false]
    omega
  · intro r2 hr2 hseat
    obtain ⟨r1, hr1, rfl⟩ := (hmemR r2).1 hr2
    by_cases hc : hasId "reservation_id" rid r1 = true
    · rw [if_pos hc, hfinishedRow r1] at hseat
      exact Bool.noConfusion hseat
    · rw [if_neg hc] at hseat ⊢
      obtain ⟨rid1, hrid1, hnn, t1, ht1, ht1has⟩ := hinv.seated r1 hr1 hseat
      have hne : rid1 ≠ rid := by
        intro he
        subst he
        exact hc ((hasId_iff _ _ _).2 hrid1)
      refine ⟨rid1, hrid1, hnn, t1, ?_, ht1has⟩
      simp only [hupd]
      rw [hrows] at ht1
      simp only [List.mem_append, List.mem_cons] at ht1
      rcases ht1 with h | rfl | h
      · exact (hmemT _).2 (Or.inl (Or.inl h))
      · rw [hasId_iff, hres] at ht1has
        exact absurd (Option.some.inj ht1has).symm hne
      · exact (hmemT _).2 (Or.inl (Or.inr h))

/-- The invariant survives `service.create` of a table that refers to no reservation. -/
theorem Invariant.create (s : Store) (table_name capacity : JsVal) (hinv : Invariant s) :
    Invariant (service.create s
      [("table_name", table_name), ("capacity", capacity), ("reservation_id", .null)]).1 := by
  have hnewid : field? [("table_id", JsVal.num s.nextTableId), ("table_name", table_name),
      ("capacity", capacity), ("reservation_id", JsVal.null)] "table_id"
      = some (.num s.nextTableId) := by
    simp [field?]
  have hnewres : field? [("table_id", JsVal.num s.nextTableId), ("table_name", table_name),
      ("capacity", capacity), ("reservation_id", JsVal.null)] "reservation_id"
      = some .null := by
    simp [field?]
  refine ⟨?_, ?_, ?_, ?_, ?_⟩
  · intro row hrow
    simp only [service.create, List.mem_append, List.mem_singleton] at hrow
    rcases hrow with hrow | rfl
    · obtain ⟨k, hk, hk2⟩ := hinv.ids row hrow
      exact ⟨k, Nat.lt_succ_of_lt hk, hk2⟩
    · exact ⟨s.nextTableId, Nat.lt_succ_self _, hnewid⟩
  · simp only [service.create, List.map_append, List.map_cons, List.map_nil, hnewid]
    rw [List.nodup_append]
    refine ⟨hinv.distinct, List.nodup_singleton _, ?_⟩
    intro a ha hb
    rw [List.mem_singleton] at hb
    subst hb
    obtain ⟨row0, hrow0, he⟩ := List.mem_map.1 ha
    obtain ⟨k, hk, hk2⟩ := hinv.ids row0 hrow0
    rw [hk2] at he
    have hkn : ((k : ℚ)) = (s.nextTableId : ℚ) := by
      have := Option.some.inj he
      exact JsVal.num.inj this
    have : k = s.nextTableId := by exact_mod_cast hkn
    omega
  · intro t ht
    simp only [service.create, List.mem_append, List.mem_singleton] at ht
    rcases ht with ht | rfl
    · exact hinv.refs t ht
    · exact ⟨.null, hnewres, Or.inl rfl⟩
  · intro x hx
    have hold := hinv.atMostOne x hx
    unfold referencing at hold ⊢
    simp only [service.create, List.countP_append, List.countP_cons, List.countP_nil]
    rw [hasId_null_of_isNull _ .null x hnewres rfl hx]
    simpa using hold
  · intro r hr hseat
    obtain ⟨rid, hrid, hnn, t, ht, hhas⟩ := hinv.seated r hr hseat
    refine ⟨rid, hrid, hnn, t, ?_, hhas⟩
    simp only [service.create, List.mem_append]
    exact Or.inl ht

/-- The invariant holds when there is no table and no reservation is seated. -/
theorem Invariant.init (s : Store) (htables : s.tables = [])
    (hseated : ∀ r ∈ s.reservations, isSeated (field r "status") = false) : Invariant s := by
  refine ⟨?_, ?_, ?_, ?_, ?_⟩
  · intro row hrow
    rw [htables] at hrow
    exact absurd hrow (List.not_mem_nil _)
  · rw [htables]
    exact List.nodup_nil
  · intro t ht
    rw [htables] at ht
    exact absurd ht (List.not_mem_nil _)
  · intro x _
    unfold referencing
    rw [htables]
    exact Nat.zero_le _
  · intro r hr hseat
    rw [hseated r hr] at hseat
    exact Bool.noConfusion hseat

/-- The invariant gives the consistency of tables and reservations. -/
theorem Invariant.consistent (s : Store) (hinv : Invariant s) : Consistent s := by
  refine ⟨hinv.atMostOne, ?_⟩
  intro r hr hseat
  obtain ⟨rid, hrid, hnn, t, ht, hhas⟩ := hinv.seated r hr hseat
  refine ⟨rid, hrid, hnn, ?_⟩
  have hle := hinv.atMostOne rid hnn
  have hpos : 0 < referencing s rid := by
    unfold referencing
    rw [List.countP_pos_iff]
    exact ⟨t, ht, hhas⟩
  omega

/-- A successful `seatReservation` passed the status guard and the occupancy guard. -/
theorem seat_succeeded_guards (env : Env) (s : Store) (req : Request)
    (h : (handle (exports.seatReservation env) s req).succeeded = true) :
    ∃ fs t r, getProp req.body "data" = some (.obj fs) ∧
      (field fs "reservation_id").truthy = true ∧
      reservationRow s (field fs "reservation_id") = some r ∧
      tableRow s req.params.table_id = some t ∧
      isSeated (field r "status") = false ∧
      (field t "reservation_id").isNull = true ∧
      (handle (exports.seatReservation env) s req).store =
        (reservationsService.update
          (service.update s (seatedTable (.obj fs) (field t "table_id"))).1
          (setField r "status" (.str "seated"))).1 := by
  obtain ⟨fs, t, r, hfs, _, hid, hr, ht, hs⟩ := seat_succeeded env s req h
  refine ⟨fs, t, r, hfs, hid, hr, ht, ?_, ?_, hs⟩
  · rw [seat_rows env s req fs t r hfs hid hr ht, seat_guards_obj env _ t r rfl rfl] at h
    by_cases h1 : isSeated (field r "status") = true
    · rw [if_pos h1] at h
      simp [Result.succeeded] at h
    · simpa using h1
  · rw [seat_rows env s req fs t r hfs hid hr ht, seat_guards_obj env _ t r rfl rfl] at h
    by_cases h1 : isSeated (field r "status") = true
    · rw [if_pos h1] at h
      simp [Result.succeeded] at h
    · rw [if_neg h1] at h
      by_cases h2 : (!(field t "reservation_id").isNull) = true
      · rw [if_pos h2] at h
        simp [Result.succeeded] at h
      · simpa using h2

/-- A successful `finishReservation` passed the occupancy guard. -/
theorem finish_succeeded_guards (env : Env) (s : Store) (req : Request)
    (h : (handle (exports.finishReservation env) s req).succeeded = true) :
    ∃ t, tableRow s req.params.table_id = some t ∧
      (field t "reservation_id").isNull = false ∧
      (handle (exports.finishReservation env) s req).store =
        (reservationsService.update (service.update s (setField t "reservation_id" .null)).1
          (setField (spread (reservationsService.read env s (field t "reservation_id")))
            "status" (.str "finished"))).1 := by
  obtain ⟨t, ht, hs⟩ := finish_succeeded env s req h
  refine ⟨t, ht, ?_, hs⟩
  rw [finish_table_found env s req t ht] at h
  by_cases h1 : (reservationsService.read env s (field t "reservation_id")).isNull = true
  · rw [if_pos h1] at h
    simp [Result.succeeded] at h
  · rw [if_neg h1] at h
    by_cases h2 : (field t "reservation_id").isNull = true
    · rw [if_pos h2] at h
      simp [Result.succeeded] at h
    · simpa using h2

/-- Every call keeps the invariant, provided a `create` supplies no `reservation_id`. -/
theorem Invariant.step (env : Env) (s : Store) (call : Call) (hinv : Invariant s)
    (hplain : ∀ req, call = Call.create req → (bodyReservationId req).truthy = false) :
    Invariant (call.run env s) := by
  unfold Call.run
  by_cases hok : (call.handle env s).succeeded = true
  · cases call with
    | create req =>
      obtain ⟨fs, hd, _, _, _, _, _, hres⟩ := create_succeeded env s req hok
      have hno : (field fs "reservation_id").truthy = false := by
        rw [← bodyReservationId_obj req fs hd]
        exact hplain req rfl
      show Invariant (handle (exports.create env) s req).store
      rw [hres]
      have hrec : newTable (field fs "table_name") (field fs "capacity")
          (field fs "reservation_id")
          = [("table_name", field fs "table_name"), ("capacity", field fs "capacity"),
              ("reservation_id", .null)] := by
        simp [newTable, hno]
      simp only [hrec]
      exact Invariant.create s _ _ hinv
    | seatReservation req =>
      obtain ⟨fs, t, r, hfs, hid, hr, ht, hns, hfree, hs⟩ := seat_succeeded_guards env s req hok
      show Invariant (handle (exports.seatReservation env) s req).store
      rw [hs]
      refine Invariant.seat s t r _ _ req.params.table_id (field fs "reservation_id") hinv ht hr
        ?_ ?_ (isNull_of_truthy _ hid) ?_ (field?_setField_same _ _ _) hns hfree
      · rw [seatedTable, field?_setField_same,
          field_of_field? _ _ _ (field?_of_tableRow _ _ _ ht)]
      · rw [seatedTable, field?_setField_other _ _ _ _ (by decide)]
        exact field?_of_truthy fs _ hid
      · rw [field?_setField_other _ _ _ _ (by decide)]
        exact field?_of_reservationRow _ _ _ hr
    | finishReservation req =>
      obtain ⟨t, ht, hocc, hs⟩ := finish_succeeded_guards env s req hok
      show Invariant (handle (exports.finishReservation env) s req).store
      rw [hs]
      obtain ⟨v, hv, hcase⟩ := hinv.refs t (List.mem_of_find?_eq_some ht)
      have hfv : field t "reservation_id" = v := field_of_field? _ _ _ hv
      rw [hfv] at hocc ⊢
      rcases hcase with hnull | ⟨⟨r0, hr0, hr0has⟩, _⟩
      · rw [hocc] at hnull
        exact Bool.noConfusion hnull
      · have hsome : ∃ r, reservationRow s v = some r := by
          cases hfind : reservationRow s v with
          | some r => exact ⟨r, rfl⟩
          | none =>
            unfold reservationRow at hfind
            rw [List.find?_eq_none] at hfind
            exact absurd hr0has (hfind r0 hr0)
        obtain ⟨r, hr⟩ := hsome
        have hread : reservationsService.read env s v = .obj r := by
          rw [read_eq_reservationRow, hr]
        rw [hread]
        refine Invariant.finish s t _ req.params.table_id v hinv ht hv hocc ?_
          (field?_setField_same _ _ _)
        show field? (setField r "status" (.str "finished")) "reservation_id" = some v
        rw [field?_setField_other _ _ _ _ (by decide)]
        exact field?_of_reservationRow _ _ _ hr
  · rw [failed_call_keeps env s call (by simpa using hok)]
    exact hinv

/-- The invariant holds after every run of calls in which no `create` supplies a `reservation_id`.
-/
theorem Invariant.run (env : Env) (calls : List Call) (s : Store) (hinv : Invariant s)
    (hplain : ∀ req, Call.create req ∈ calls → (bodyReservationId req).truthy = false) :
    Invariant (runCalls env s calls) := by
  induction calls generalizing s with
  | nil => exact hinv
  | cons call rest ih =>
    rw [runCalls]
    apply ih
    · apply Invariant.step env s call hinv
      intro req hreq
      exact hplain req (hreq ▸ List.mem_cons_self _ _)
    · intro req hreq
      exact hplain req (List.mem_cons_of_mem _ hreq)

/-- C14 (as amended). Starting from a store with no table and no seated reservation (the empty
store in particular), after every finite sequence of `create`, `seatReservation` and
`finishReservation` calls in which no `create` supplies a truthy `reservation_id`, at most one
table refers to any given reservation, and every reservation whose status is `"seated"` is
referred to by exactly one table. -/
theorem C14_consistency_invariant (env : Env) (s : Store) (calls : List Call)
    (htables : s.tables = [])
    (hseated : ∀ r ∈ s.reservations, isSeated (field r "status") = false)
    (hplain : ∀ req, Call.create req ∈ calls → (bodyReservationId req).truthy = false) :
    Consistent (runCalls env s calls) :=
  Invariant.consistent _ (Invariant.run env calls s (Invariant.init s htables hseated) hplain)

/-! ## Witnesses and counterexamples for C11 to C16 -/

/-- C11, witness: reservation 7 (4 people) at the free table 1 (capacity 4) of `sampleStore`. -/
theorem C11_witness :
    (bodyReservationId seatRequest).truthy = true ∧
    (((handle (exports.seatReservation exampleEnv) sampleStore seatRequest).reply
        = Reply.error 400 "Table 1 can not seat 4 people, choose table with higher capacity"
      ↔ jsGt exampleEnv (.num 4) (.num 4) = true) ∧
    ((handle (exports.seatReservation exampleEnv) sampleStore seatRequest).succeeded = true
      ↔ jsGt exampleEnv (.num 4) (.num 4) = false) ∧
    (∀ people capacity : ℚ, JsVal.num 4 = .num people → JsVal.num 4 = .num capacity →
      (jsGt exampleEnv (.num 4) (.num 4) = true ↔ people > capacity))) :=
  ⟨rfl, C11_capacity_conflict exampleEnv sampleStore seatRequest
    [("table_id", .num 1), ("table_name", .str "Bar #1"), ("capacity", .num 4),
      ("reservation_id", .null)]
    [("reservation_id", .num 7), ("people", .num 4), ("status", .str "booked")]
    rfl rfl rfl rfl rfl⟩

/-- A party of 4 is seated at a table of capacity 4. -/
theorem seat_four_at_four :
    (handle (exports.seatReservation exampleEnv) sampleStore seatRequest).succeeded = true :=
  rfl

/-- A party of 5 is refused at a table of capacity 4, with the capacity conflict. -/
theorem seat_five_at_four :
    (handle (exports.seatReservation exampleEnv) twoPartiesStore seatEightRequest).reply
      = Reply.error 400 "Table 1 can not seat 5 people, choose table with higher capacity" :=
  rfl

/-- C12, witness: at table 1 of `twoPartiesStore`, reservation 7 is seated first, then reservation
8 is refused. -/
theorem C12_witness :
    (handle (exports.seatReservation exampleEnv) twoPartiesStore seatRequest).succeeded = true ∧
    bodyReservationId seatEightRequest ≠ bodyReservationId seatRequest ∧
    (handle (exports.seatReservation exampleEnv)
        (handle (exports.seatReservation exampleEnv) twoPartiesStore seatRequest).store
        seatEightRequest
      = { reply := Reply.error 400 "Table 1 is occupied, choose different table",
          store := (handle (exports.seatReservation exampleEnv) twoPartiesStore
            seatRequest).store } ∧
    ∃ t2, tableRow (handle (exports.seatReservation exampleEnv) twoPartiesStore
        seatRequest).store seatRequest.params.table_id = some t2 ∧
      field t2 "reservation_id" = bodyReservationId seatRequest) :=
  ⟨rfl, by simp [bodyReservationId, seatEightRequest, seatRequest, request, dataBody, getProp,
      orEmptyObject, field, field?],
    C12_second_seat_conflict exampleEnv twoPartiesStore seatRequest seatEightRequest
      [("reservation_id", .num 8), ("people", .num 5), ("status", .str "booked")]
      rfl rfl rfl
      (by simp [bodyReservationId, seatEightRequest, seatRequest, request, dataBody, getProp,
        orEmptyObject, field, field?])
      rfl rfl⟩

/-- C13, counterexample to the claim as stated: right after `finishReservation` released
reservation 7 (its status is `"finished"`), `seatReservation` with that reservation succeeds at
table 1 and the reservation is seated again. -/
theorem C13_counterexample :
    reservationRow (handle (exports.finishReservation exampleEnv) seatedStore
        finishRequest).store (.num 7)
      = some [("reservation_id", .num 7), ("people", .num 4), ("status", .str "finished")] ∧
    (handle (exports.seatReservation exampleEnv)
      (handle (exports.finishReservation exampleEnv) seatedStore finishRequest).store
      seatRequest).succeeded = true ∧
    reservationRow (handle (exports.seatReservation exampleEnv)
      (handle (exports.finishReservation exampleEnv) seatedStore finishRequest).store
      seatRequest).store (.num 7)
      = some [("reservation_id", .num 7), ("people", .num 4), ("status", .str "seated")] :=
  ⟨rfl, rfl, rfl⟩

/-- C13, witness: reservation 7 of `finishedStore` is finished, and table 1 is free and large
enough. -/
theorem C13_witness :
    field [("reservation_id", JsVal.num 7), ("people", JsVal.num 4),
      ("status", JsVal.str "finished")] "status" = .str "finished" ∧
    (handle (exports.seatReservation exampleEnv) finishedStore seatRequest).succeeded = true ∧
    ∃ t2 r2,
      tableRow (handle (exports.seatReservation exampleEnv) finishedStore seatRequest).store
        seatRequest.params.table_id = some t2 ∧
      field t2 "reservation_id" = bodyReservationId seatRequest ∧
      reservationRow (handle (exports.seatReservation exampleEnv) finishedStore
        seatRequest).store (bodyReservationId seatRequest) = some r2 ∧
      field r2 "status" = .str "seated" :=
  ⟨rfl, C13_finished_is_seated_again exampleEnv finishedStore seatRequest
    [("table_id", .num 1), ("table_name", .str "Bar #1"), ("capacity", .num 4),
      ("reservation_id", .null)]
    [("reservation_id", .num 7), ("people", .num 4), ("status", .str "finished")]
    rfl rfl rfl rfl rfl rfl⟩

/-- C14, counterexample to the claim as stated: from the empty store, two `create` calls that
supply `reservation_id: 9` leave two tables referring to reservation 9; and from a store with no
table and the booked reservation 7, creating a table, seating reservation 7 at it and creating a
second table with `reservation_id: 7` leaves the seated reservation referred to by two tables. -/
theorem C14_counterexample :
    ¬ Consistent (runCalls exampleEnv emptyStore
      [Call.create occupiedCreateRequest, Call.create secondOccupiedCreateRequest]) ∧
    ¬ Consistent (runCalls exampleEnv bookedStore
      [Call.create createRequest, Call.seatReservation seatRequest,
        Call.create seatedCreateRequest]) := by
  constructor
  · intro h
    have h2 := h.1 (.num 9) rfl
    have hc : referencing (runCalls exampleEnv emptyStore
        [Call.create occupiedCreateRequest, Call.create secondOccupiedCreateRequest]) (.num 9)
        = 2 := rfl
    omega
  · intro h
    have h2 := h.1 (.num 7) rfl
    have hc : referencing (runCalls exampleEnv bookedStore
        [Call.create createRequest, Call.seatReservation seatRequest,
          Call.create seatedCreateRequest]) (.num 7) = 2 := rfl
    omega

/-- C14, witness: `bookedStore` has no table and no seated reservation, and `createRequest`
supplies no `reservation_id`. -/
theorem C14_witness :
    bookedStore.tables = [] ∧
    Consistent (runCalls exampleEnv bookedStore
      [Call.create createRequest, Call.seatReservation seatRequest,
        Call.finishReservation finishRequest]) :=
  ⟨rfl, C14_consistency_invariant exampleEnv bookedStore
    [Call.create createRequest, Call.seatReservation seatRequest,
      Call.finishReservation finishRequest] rfl
    (by
      intro r hr
      simp only [bookedStore, List.mem_singleton] at hr
      subst hr
      rfl)
    (by
      intro req hreq
      simp only [List.mem_cons, Call.create.injEq, List.mem_singleton, List.not_mem_nil,
        or_false, false_or, reduceCtorEq] at hreq
      subst hreq
      rfl)⟩

/-- C15, witness: seating the already seated reservation 7 of `seatedStore` fails on the status
guard. -/
theorem C15_witness :
    (Call.handle exampleEnv seatedStore (Call.seatReservation seatRequest)).reply
      = Reply.error 400 "this reservation is already seated" ∧
    (Call.handle exampleEnv seatedStore (Call.seatReservation seatRequest)).store
      = seatedStore :=
  ⟨rfl, C15_failed_call_changes_nothing exampleEnv seatedStore
    (Call.seatReservation seatRequest) rfl⟩

/-- C16, counterexample to the claim as stated: a table created with capacity 4 and
`reservation_id: 9` is occupied from the start, so seating the booked reservation 7 (4 people) at
it fails with the occupancy conflict. -/
theorem C16_counterexample :
    (handle (exports.create exampleEnv) bookedStore occupiedCreateRequest).succeeded = true ∧
    (handle (exports.seatReservation exampleEnv)
      (handle (exports.create exampleEnv) bookedStore occupiedCreateRequest).store
      seatRequest).reply
      = Reply.error 400 "Table 1 is occupied, choose different table" :=
  ⟨rfl, rfl⟩

/-- C16, witness: on `bookedStore`, create table 1 with capacity 4, seat reservation 7 (4 people),
finish. -/
theorem C16_witness :
    tableRow bookedStore (.num bookedStore.nextTableId) = none ∧
    reservationRow bookedStore (.num 7)
      = some [("reservation_id", .num 7), ("people", .num 4), ("status", .str "booked")] ∧
    ((Call.handle exampleEnv bookedStore (.create createRequest)).succeeded = true ∧
    (Call.handle exampleEnv (runCalls exampleEnv bookedStore [.create createRequest])
      (.seatReservation seatRequest)).succeeded = true ∧
    (∃ t2 r2,
      tableRow (runCalls exampleEnv bookedStore
        [.create createRequest, .seatReservation seatRequest]) (.num bookedStore.nextTableId)
        = some t2 ∧
      field t2 "reservation_id" = field [("reservation_id", JsVal.num 7)] "reservation_id" ∧
      reservationRow (runCalls exampleEnv bookedStore
        [.create createRequest, .seatReservation seatRequest])
        (field [("reservation_id", JsVal.num 7)] "reservation_id") = some r2 ∧
      field r2 "status" = .str "seated") ∧
    (Call.handle exampleEnv (runCalls exampleEnv bookedStore
      [.create createRequest, .seatReservation seatRequest])
      (.finishReservation finishRequest)).succeeded = true ∧
    (∃ t3 r3,
      tableRow (runCalls exampleEnv bookedStore
        [.create createRequest, .seatReservation seatRequest,
          .finishReservation finishRequest]) (.num bookedStore.nextTableId) = some t3 ∧
      field t3 "reservation_id" = .null ∧
      field t3 "table_name" = .str "T1" ∧
      field t3 "capacity" = .num 4 ∧
      reservationRow (runCalls exampleEnv bookedStore
        [.create createRequest, .seatReservation seatRequest,
          .finishReservation finishRequest])
        (field [("reservation_id", JsVal.num 7)] "reservation_id") = some r3 ∧
      field r3 "status" = .str "finished")) :=
  ⟨rfl, rfl,
    C16_round_trip exampleEnv bookedStore createRequest seatRequest finishRequest
      [("table_name", .str "T1"), ("capacity", .num 4)] [("reservation_id", .num 7)]
      [("reservation_id", .num 7), ("people", .num 4), ("status", .str "booked")]
      "T1" 4 4 rfl rfl (by decide) rfl (by decide) rfl rfl rfl rfl rfl rfl rfl rfl rfl rfl rfl
      rfl (le_refl 4)⟩

end Tables
